import Mathlib

/-!
Verification of the `ditele` vehicle-telemetry pipeline.

The development shallowly embeds the pipeline's Python sources:

* `telemetry/interpreter.py` and `telemetry/devices/common.py`
  (sentinel filtering, enum mapping, unit conversion) as functions over
  `Option ℚ` / `Option Int`, where `none` is Python `None`;
* `telemetry/transformer.py` (`transform_telemetry_data`) as a function over a
  JSON-like `PyVal` type in the `Except PyErr` monad, so that the Python
  runtime errors raised by attribute access on non-dicts, by `float(...)` on
  non-numeric values, and by set membership on unhashable values are explicit;
* `telemetry/services.py` (`process_telemetry_data` and its helpers) as a pure
  state-transition function on a `Db` record holding the four tables the
  service reads and writes (drives, charging sessions, positions, charging
  data points).

Numbers are represented by `ℚ` (Python floats/Numerics are treated as exact),
timestamps by `Int` seconds since the epoch;
`duration = int(total_seconds / 60)` is truncation toward zero, embedded by
`pyIntOfRat`.  The SQL query `ORDER BY start_date DESC LIMIT 1` over the open
intervals is embedded by `latestByStart` (maximum of `start_date`, preferring
the later-inserted row on ties), and `ORDER BY timestamp ASC` over a drive's
positions by the stable insertion sort `sortPositionsByTs`.
-/

namespace Ditele

/-- Truncation toward zero of a rational, Python's `int(...)` on a float. -/
def pyIntOfRat (q : ℚ) : Int :=
  if q < 0 then -(Rat.floor (-q)) else Rat.floor q

/-- Python truthiness of a possibly-absent number (`None` and `0` are falsy). -/
def pyTruthyQ (v : Option ℚ) : Bool :=
  match v with
  | none => false
  | some x => if x = 0 then false else true

/-! ### interpreter.py / devices/common.py -/

/-- `ERROR_VALUES`: the fixed sentinel set, as integers
(`telemetry/interpreter.py` lines 6-13, identical in `devices/common.py`). -/
def ERROR_VALUES_INT : List Int :=
  [-2147482645, -2147482648, 65535, 255, -10011, -1]

/-- The sentinel set seen at rational type (Python compares ints and floats
numerically, so `-1.0 in ERROR_VALUES` holds). -/
def ERROR_VALUES : List ℚ :=
  [-2147482645, -2147482648, 65535, 255, -10011, -1]

/-- `is_error_value`, over possibly-absent rationals: `None` and every member
of the sentinel set count as errors. -/
def is_error_value (value : Option ℚ) : Bool :=
  match value with
  | none => true
  | some v => decide (v ∈ ERROR_VALUES)

/-- `is_error_value`, over possibly-absent integers (the enum decoders consume
raw integer codes). -/
def is_error_value_int (value : Option Int) : Bool :=
  match value with
  | none => true
  | some v => decide (v ∈ ERROR_VALUES_INT)

/-- `clean_value`: `None` if the value is an error value, else the value. -/
def clean_value (value : Option ℚ) : Option ℚ :=
  if is_error_value value then none else value

/-- `map_gear_position` (`telemetry/devices/gearbox.py` lines 6-28,
identical in `interpreter.py`): `None`/sentinel to `None`, 1-6 to the named
gear, every other integer to `"Unknown"`. -/
def map_gear_position (value : Option Int) : Option String :=
  match value with
  | none => none
  | some v =>
    if decide (v ∈ ERROR_VALUES_INT) then none
    else some (if v = 1 then "P"
      else if v = 2 then "R"
      else if v = 3 then "N"
      else if v = 4 then "D"
      else if v = 5 then "S"
      else if v = 6 then "M"
      else "Unknown")

/-- `map_wind_mode` (`interpreter.py` lines 55-81). -/
def map_wind_mode (value : Option Int) : Option String :=
  match value with
  | none => none
  | some v =>
    if decide (v ∈ ERROR_VALUES_INT) then none
    else some (if v = 0 then "Auto"
      else if v = 1 then "Face"
      else if v = 2 then "Face+Feet"
      else if v = 3 then "Feet"
      else if v = 4 then "Defrost+Feet"
      else if v = 5 then "Defrost"
      else if v = 6 then "Defrost+Face+Feet"
      else if v = 7 then "Defrost+Face"
      else "Unknown")

/-- `map_cycle_mode` (`interpreter.py` lines 84-98). -/
def map_cycle_mode (value : Option Int) : Option String :=
  match value with
  | none => none
  | some v =>
    if decide (v ∈ ERROR_VALUES_INT) then none
    else some (if v = 0 then "Fresh" else if v = 1 then "Recirc" else "Unknown")

/-- `to_boolean` (`interpreter.py` lines 101-121); the Python defaults
`true_values={1}`, `false_value=None` are passed explicitly. -/
def to_boolean (trueValues : List Int) (falseValue : Option Int)
    (value : Option Int) : Option Bool :=
  match value with
  | none => none
  | some v =>
    if decide (v ∈ ERROR_VALUES_INT) then none
    else if v ∈ trueValues then some true
    else match falseValue with
      | some f => some (decide (v = f))
      | none => some false

/-- `convert_tire_pressure_kpa_to_bar` (`interpreter.py` lines 124-137). -/
def convert_tire_pressure_kpa_to_bar (kpa : Option ℚ) : Option ℚ :=
  match kpa with
  | none => none
  | some v =>
    if decide (v ∈ ERROR_VALUES) then none
    else some (v / 100)

/-- `convert_temperature_to_celsius` (`devices/common.py` lines 63-83,
identical in `interpreter.py`): unit 2 is Fahrenheit, anything else
(including 1, `None` and unknown codes) passes through as Celsius. -/
def convert_temperature_to_celsius (value : Option ℚ) (unit : Option Int) :
    Option ℚ :=
  match value with
  | none => none
  | some v =>
    if decide (v ∈ ERROR_VALUES) then none
    else if unit = some 2 then some ((v - 32) * 5 / 9)
    else if unit = some 1 then some v
    else some v

/-- `convert_pressure_to_bar` (`interpreter.py` lines 163-186). -/
def convert_pressure_to_bar (value : Option ℚ) (unit : Option Int) :
    Option ℚ :=
  match value with
  | none => none
  | some v =>
    if decide (v ∈ ERROR_VALUES) then none
    else if unit = some 1 then some v
    else if unit = some 2 then some (v / (145038 / 10000 : ℚ))
    else if unit = some 3 then some (v / 100)
    else some v

/-- `convert_power_to_kw` (`devices/common.py` lines 86-106). -/
def convert_power_to_kw (value : Option ℚ) (unit : Option Int) : Option ℚ :=
  match value with
  | none => none
  | some v =>
    if decide (v ∈ ERROR_VALUES) then none
    else if unit = some 1 then some v
    else if unit = some 2 then some (v * (7457 / 10000 : ℚ))
    else some v

/-- `normalize_tire_temp` (`transformer.py` lines 151-157, identical in
`devices/instrument.py`): divide by 10 if the value is at least 100,
otherwise keep it. -/
def normalize_tire_temp (value : Option ℚ) : Option ℚ :=
  match value with
  | none => none
  | some v =>
    if decide (v ∈ ERROR_VALUES) then none
    else some (if 100 ≤ v then v / 10 else v)

/-- The tire-temperature field of the transformer
(`transformer.py` lines 159-167): dual-encoding normalization followed by
temperature-unit conversion. -/
def tire_temp_field (raw : Option ℚ) (unit : Option Int) : Option ℚ :=
  convert_temperature_to_celsius (normalize_tire_temp raw) unit

/-- `normalize_pressure` (`transformer.py` lines 136-139,
`devices/instrument.py` lines 62-65): raw tire pressure divided by 10. -/
def normalize_pressure (value : Option ℚ) : Option ℚ :=
  match value with
  | none => none
  | some v =>
    if decide (v ∈ ERROR_VALUES) then none
    else some (v / 10)

/-! ### The transformed record (output shape of `transform_telemetry_data`)
as consumed by `telemetry/services.py`.  `none` is a missing or null entry. -/

/-- The typed view of the `transformed` dictionary that
`process_telemetry_data` reads (`services.py` lines 32-36 and the field reads
in `_handle_drive_detection`, `_handle_charging_session`, `_create_position`). -/
structure Transformed where
  latitude : Option ℚ
  longitude : Option ℚ
  heading : Option ℚ
  gps_accuracy : Option ℚ
  speed : Option ℚ
  odometer : Option ℚ
  battery_level : Option ℚ
  battery_range_km : Option ℚ
  outside_temp : Option ℚ
  inside_temp : Option ℚ
  power : Option ℚ
  gear_position : Option String
  is_climate_on : Option Bool
  driver_temp_setting : Option ℚ
  passenger_temp_setting : Option ℚ
  fan_level : Option ℚ
  wind_mode : Option String
  cycle_mode : Option String
  is_rear_defroster_on : Option Bool
  is_front_defroster_on : Option Bool
  tire_pressure_fl : Option ℚ
  tire_pressure_fr : Option ℚ
  tire_pressure_rl : Option ℚ
  tire_pressure_rr : Option ℚ
  tire_temp_fl : Option ℚ
  tire_temp_fr : Option ℚ
  tire_temp_rl : Option ℚ
  tire_temp_rr : Option ℚ
  pm25_inside : Option ℚ
  pm25_outside : Option ℚ
  is_charging : Option Bool
  charging_gun_connected : Option Bool
  charger_power : Option ℚ
  charge_energy_added : Option ℚ
deriving DecidableEq

/-- A `Transformed` record with every field absent. -/
def emptyTransformed : Transformed :=
  { latitude := none, longitude := none, heading := none, gps_accuracy := none
    speed := none, odometer := none, battery_level := none
    battery_range_km := none, outside_temp := none, inside_temp := none
    power := none, gear_position := none, is_climate_on := none
    driver_temp_setting := none, passenger_temp_setting := none
    fan_level := none, wind_mode := none, cycle_mode := none
    is_rear_defroster_on := none, is_front_defroster_on := none
    tire_pressure_fl := none, tire_pressure_fr := none
    tire_pressure_rl := none, tire_pressure_rr := none
    tire_temp_fl := none, tire_temp_fr := none, tire_temp_rl := none
    tire_temp_rr := none, pm25_inside := none, pm25_outside := none
    is_charging := none, charging_gun_connected := none
    charger_power := none, charge_energy_added := none }

/-! ### database/models.py rows read and written by `services.py` -/

/-- A row of the `drives` table (`database/models.py`). -/
structure Drive where
  id : Nat
  vehicle_id : Nat
  start_date : Int
  end_date : Option Int
  start_position_id : Option Nat
  end_position_id : Option Nat
  distance : Option ℚ
  duration_min : Option Int
  speed_max : Option ℚ
  power_max : Option ℚ
  power_min : Option ℚ
  power_avg : Option Int
  start_km : Option ℚ
  end_km : Option ℚ
  start_battery_range_km : Option ℚ
  end_battery_range_km : Option ℚ
  outside_temp_avg : Option ℚ
deriving DecidableEq

/-- A row of the `charging_sessions` table. -/
structure ChargingSession where
  id : Nat
  vehicle_id : Nat
  start_date : Int
  end_date : Option Int
  start_battery_level : Option ℚ
  end_battery_level : Option ℚ
  duration_min : Option Int
deriving DecidableEq

/-- A row of the `charging_data_points` table. -/
structure ChargingDataPoint where
  charging_session_id : Nat
  timestamp : Int
  battery_level : Option ℚ
  charge_energy_added : Option ℚ
  charger_power : Option ℚ
  outside_temp : Option ℚ
deriving DecidableEq

/-- A row of the `positions` table, with the columns `_create_position`
fills (`services.py` lines 246-280). -/
structure Position where
  id : Nat
  vehicle_id : Nat
  timestamp : Int
  latitude : Option ℚ
  longitude : Option ℚ
  heading : Option ℚ
  gps_accuracy : Option ℚ
  speed : Option ℚ
  odometer : Option ℚ
  battery_level : Option ℚ
  battery_range_km : Option ℚ
  outside_temp : Option ℚ
  inside_temp : Option ℚ
  power : Option ℚ
  is_climate_on : Option Bool
  driver_temp_setting : Option ℚ
  passenger_temp_setting : Option ℚ
  is_rear_defroster_on : Option Bool
  is_front_defroster_on : Option Bool
  gear_position : Option String
  fan_level : Option ℚ
  wind_mode : Option String
  cycle_mode : Option String
  tire_pressure_fl : Option ℚ
  tire_pressure_fr : Option ℚ
  tire_pressure_rl : Option ℚ
  tire_pressure_rr : Option ℚ
  tire_temp_fl : Option ℚ
  tire_temp_fr : Option ℚ
  tire_temp_rl : Option ℚ
  tire_temp_rr : Option ℚ
  pm25_inside : Option ℚ
  pm25_outside : Option ℚ
  drive_id : Option Nat
deriving DecidableEq

/-- The store state `process_telemetry_data` reads and writes: the four
tables plus the autoincrement counters the database would assign. -/
structure Db where
  drives : List Drive
  sessions : List ChargingSession
  positions : List Position
  dataPoints : List ChargingDataPoint
  nextDriveId : Nat
  nextSessionId : Nat
  nextPositionId : Nat
deriving DecidableEq

/-- The store before any telemetry is processed (ids autoincrement from 1). -/
def initDb : Db :=
  { drives := [], sessions := [], positions := [], dataPoints := []
    nextDriveId := 1, nextSessionId := 1, nextPositionId := 1 }

/-! ### services.py -/

/-- The `WHERE` clause of the active-drive query: `vehicle_id` matches and
`end_date IS NULL`. -/
def openDrivePred (vehicleId : Nat) (d : Drive) : Bool :=
  decide (d.vehicle_id = vehicleId ∧ d.end_date = none)

/-- The `WHERE` clause of the active-charging-session query. -/
def openSessionPred (vehicleId : Nat) (s : ChargingSession) : Bool :=
  decide (s.vehicle_id = vehicleId ∧ s.end_date = none)

/-- The open drives of a vehicle: `Drive.vehicle_id == vehicle_id` and
`Drive.end_date IS NULL` (`services.py` lines 39-45). -/
def openDrivesFor (db : Db) (vehicleId : Nat) : List Drive :=
  db.drives.filter (openDrivePred vehicleId)

/-- The open charging sessions of a vehicle (`services.py` lines 182-188). -/
def openSessionsFor (db : Db) (vehicleId : Nat) : List ChargingSession :=
  db.sessions.filter (openSessionPred vehicleId)

/-- `ORDER BY start_date DESC LIMIT 1`: the row with the greatest
`start_date`, preferring the later-inserted row on ties (a deterministic
refinement of the SQL ordering). -/
def latestDriveByStart (l : List Drive) : Option Drive :=
  l.foldl (fun acc d =>
    match acc with
    | none => some d
    | some a => if a.start_date ≤ d.start_date then some d else some a) none

/-- `ORDER BY start_date DESC LIMIT 1` for charging sessions. -/
def latestSessionByStart (l : List ChargingSession) : Option ChargingSession :=
  l.foldl (fun acc s =>
    match acc with
    | none => some s
    | some a => if a.start_date ≤ s.start_date then some s else some a) none

/-- The `existing_active_drive` query of `process_telemetry_data`
(`services.py` lines 38-46). -/
def findActiveDrive (db : Db) (vehicleId : Nat) : Option Drive :=
  latestDriveByStart (openDrivesFor db vehicleId)

/-- Stable insertion into a timestamp-ascending list (the new element goes
after all elements with a less-or-equal timestamp). -/
def insertPositionByTs (p : Position) : List Position → List Position
  | [] => [p]
  | q :: rest =>
    if q.timestamp ≤ p.timestamp then q :: insertPositionByTs p rest
    else p :: q :: rest

/-- `ORDER BY timestamp ASC` over positions, as a stable insertion sort. -/
def sortPositionsByTs (l : List Position) : List Position :=
  l.foldr insertPositionByTs []

/-- Python `current_gear in ["D", "N", "R", "S", "M"]` (`services.py`
line 97); `None` is not a member. -/
def gearInDriveModes (gear : Option String) : Bool :=
  match gear with
  | none => false
  | some g => ["D", "N", "R", "S", "M"].contains g

/-- `_calculate_drive_aggregates` (`services.py` lines 130-166): recompute the
aggregate columns of a just-closed drive from the positions whose `drive_id`
is this drive, ordered by timestamp ascending.  Note the guards: an empty
position list returns immediately, and `distance` is computed only when both
odometer readings are Python-truthy (present and nonzero). -/
def calculate_drive_aggregates (db : Db) (drive : Drive) : Drive :=
  let drive_positions :=
    sortPositionsByTs (db.positions.filter (fun p => decide (p.drive_id = some drive.id)))
  match drive_positions with
  | [] => drive
  | first :: _ =>
    let speeds := drive_positions.filterMap (fun p => p.speed)
    let powers := drive_positions.filterMap (fun p => p.power)
    let temps := drive_positions.filterMap (fun p => p.outside_temp)
    let drive := match speeds with
      | [] => drive
      | s0 :: srest => { drive with speed_max := some (srest.foldl max s0) }
    let drive := match powers with
      | [] => drive
      | p0 :: prest =>
        { drive with
          power_max := some (prest.foldl max p0)
          power_min := some (prest.foldl min p0)
          power_avg := some (pyIntOfRat (powers.sum / (powers.length : ℚ))) }
    let drive := match temps with
      | [] => drive
      | _ :: _ => { drive with outside_temp_avg := some (temps.sum / (temps.length : ℚ)) }
    let drive :=
      if pyTruthyQ drive.start_km && pyTruthyQ drive.end_km then
        { drive with
          distance := some ((drive.end_km.getD 0) - (drive.start_km.getD 0)) }
      else drive
    let drive := match drive.end_date with
      | some e =>
        { drive with duration_min := some (pyIntOfRat (((e - drive.start_date : Int) : ℚ) / 60)) }
      | none => drive
    { drive with
      start_position_id := some first.id
      end_position_id := some ((drive_positions.getLast?.map (fun p => p.id)).getD first.id) }

/-- The `Drive` row created at a drive start (`services.py` lines 101-106). -/
def newDriveRecord (db : Db) (vehicleId : Nat) (timestamp : Int)
    (transformed : Transformed) : Drive :=
  { id := db.nextDriveId
    vehicle_id := vehicleId
    start_date := timestamp
    end_date := none
    start_position_id := none
    end_position_id := none
    distance := none
    duration_min := none
    speed_max := none
    power_max := none
    power_min := none
    power_avg := none
    start_km := transformed.odometer
    end_km := none
    start_battery_range_km := transformed.battery_range_km
    end_battery_range_km := none
    outside_temp_avg := none }

/-- The closed `Drive` row at a drive end (`services.py` lines 114-121):
end fields from the snapshot, then the aggregate recomputation. -/
def closedDriveRecord (db : Db) (timestamp : Int) (transformed : Transformed)
    (endedDrive : Drive) : Drive :=
  calculate_drive_aggregates db
    { endedDrive with
      end_date := some timestamp
      end_km := transformed.odometer
      end_battery_range_km := transformed.battery_range_km }

/-- `_handle_drive_detection` (`services.py` lines 82-127).  Returns the
updated store, the active drive (if any) and whether a drive just started. -/
def handle_drive_detection (db : Db) (vehicleId : Nat) (timestamp : Int)
    (transformed : Transformed) (existingActiveDrive : Option Drive) :
    Db × Option Drive × Bool :=
  if gearInDriveModes transformed.gear_position && existingActiveDrive.isNone then
    let activeDrive := newDriveRecord db vehicleId timestamp transformed
    ({ db with drives := db.drives ++ [activeDrive], nextDriveId := db.nextDriveId + 1 },
      some activeDrive, true)
  else
    match transformed.gear_position, existingActiveDrive with
    | some "P", some endedDrive =>
      let closed := closedDriveRecord db timestamp transformed endedDrive
      ({ db with
          drives := db.drives.map (fun d => if d.id = closed.id then closed else d) },
        none, false)
    | _, _ => (db, existingActiveDrive, false)

/-- The `ChargingSession` row created at a charging start
(`services.py` lines 195-199). -/
def newSessionRecord (db : Db) (vehicleId : Nat) (timestamp : Int)
    (transformed : Transformed) : ChargingSession :=
  { id := db.nextSessionId
    vehicle_id := vehicleId
    start_date := timestamp
    end_date := none
    start_battery_level := transformed.battery_level
    end_battery_level := none
    duration_min := none }

/-- The closed `ChargingSession` row at a charging end
(`services.py` lines 207-214). -/
def closedSessionRecord (timestamp : Int) (transformed : Transformed)
    (s : ChargingSession) : ChargingSession :=
  { s with
    end_date := some timestamp
    end_battery_level := transformed.battery_level
    duration_min := some (pyIntOfRat (((timestamp - s.start_date : Int) : ℚ) / 60)) }

/-- `_handle_charging_session` (`services.py` lines 169-220): re-query the
open session, then start, close or continue. -/
def handle_charging_session (db : Db) (vehicleId : Nat) (timestamp : Int)
    (transformed : Transformed) : Db × Option ChargingSession :=
  let existingActiveSession := latestSessionByStart (openSessionsFor db vehicleId)
  let prevCharging := existingActiveSession.isSome
  if !prevCharging && transformed.is_charging = some true then
    let activeSession := newSessionRecord db vehicleId timestamp transformed
    ({ db with
        sessions := db.sessions ++ [activeSession]
        nextSessionId := db.nextSessionId + 1 },
      some activeSession)
  else if prevCharging && transformed.is_charging = some false then
    match existingActiveSession with
    | some s =>
      let closed := closedSessionRecord timestamp transformed s
      ({ db with
          sessions := db.sessions.map (fun x => if x.id = closed.id then closed else x) },
        none)
    | none => (db, none)
  else (db, existingActiveSession)

/-- `_create_position` (`services.py` lines 223-280).  GPS coordinates fall
back to `0.0` under Python `or`: `None` and `0` both store `0.0`. -/
def create_position (positionId : Nat) (vehicleId : Nat) (timestamp : Int)
    (transformed : Transformed) (activeDrive : Option Drive) : Position :=
  let lat : ℚ := if pyTruthyQ transformed.latitude then transformed.latitude.getD 0 else 0
  let lon : ℚ := if pyTruthyQ transformed.longitude then transformed.longitude.getD 0 else 0
  { id := positionId
    vehicle_id := vehicleId
    timestamp := timestamp
    latitude := some lat
    longitude := some lon
    heading := transformed.heading
    gps_accuracy := transformed.gps_accuracy
    speed := transformed.speed
    odometer := transformed.odometer
    battery_level := transformed.battery_level
    battery_range_km := transformed.battery_range_km
    outside_temp := transformed.outside_temp
    inside_temp := transformed.inside_temp
    power := transformed.power
    is_climate_on := transformed.is_climate_on
    driver_temp_setting := transformed.driver_temp_setting
    passenger_temp_setting := transformed.passenger_temp_setting
    is_rear_defroster_on := transformed.is_rear_defroster_on
    is_front_defroster_on := transformed.is_front_defroster_on
    gear_position := transformed.gear_position
    fan_level := transformed.fan_level
    wind_mode := transformed.wind_mode
    cycle_mode := transformed.cycle_mode
    tire_pressure_fl := transformed.tire_pressure_fl
    tire_pressure_fr := transformed.tire_pressure_fr
    tire_pressure_rl := transformed.tire_pressure_rl
    tire_pressure_rr := transformed.tire_pressure_rr
    tire_temp_fl := transformed.tire_temp_fl
    tire_temp_fr := transformed.tire_temp_fr
    tire_temp_rl := transformed.tire_temp_rl
    tire_temp_rr := transformed.tire_temp_rr
    pm25_inside := transformed.pm25_inside
    pm25_outside := transformed.pm25_outside
    drive_id := activeDrive.map (fun d => d.id) }

/-- The charging data point appended while charging (`services.py`
lines 58-68): one data point when an active session exists and the decoded
charging flag is Python-truthy (`True`), nothing otherwise. -/
def newChargingDataPoints (activeChargingSession : Option ChargingSession)
    (transformed : Transformed) (timestamp : Int) : List ChargingDataPoint :=
  match activeChargingSession, transformed.is_charging with
  | some s, some true =>
    [{ charging_session_id := s.id
       timestamp := timestamp
       battery_level := transformed.battery_level
       charge_energy_added := transformed.charge_energy_added
       charger_power := transformed.charger_power
       outside_temp := transformed.outside_temp }]
  | _, _ => []

/-- The `start_position_id` patch of a just-started drive (`services.py`
lines 75-77), applied when the active drive is present and `drive_started`. -/
def patchStartPosition (drives : List Drive) (activeDrive : Option Drive)
    (driveStarted : Bool) (positionId : Nat) : List Drive :=
  match activeDrive, driveStarted with
  | some d, true =>
    drives.map (fun x =>
      if x.id = d.id then { x with start_position_id := some positionId } else x)
  | _, _ => drives

/-- `process_telemetry_data` (`services.py` lines 14-79), as a pure state
transition: drive detection, charging-session handling, appending one
charging data point while charging, persisting the position, and patching a
just-started drive's `start_position_id` with the new position's id. -/
def process_telemetry_data (db : Db) (vehicleId : Nat)
    (transformed : Transformed) (timestamp : Int) :
    Db × Position × Option Drive × Option ChargingSession :=
  let existingActiveDrive := findActiveDrive db vehicleId
  let dd := handle_drive_detection db vehicleId timestamp transformed existingActiveDrive
  let activeDrive := dd.2.1
  let driveStarted := dd.2.2
  let cc := handle_charging_session dd.1 vehicleId timestamp transformed
  let activeChargingSession := cc.2
  let db3 := { cc.1 with
    dataPoints := cc.1.dataPoints ++
      newChargingDataPoints activeChargingSession transformed timestamp }
  let position := create_position db3.nextPositionId vehicleId timestamp transformed activeDrive
  let db4 := { db3 with
    positions := db3.positions ++ [position]
    nextPositionId := db3.nextPositionId + 1 }
  let db5 := { db4 with
    drives := patchStartPosition db4.drives activeDrive driveStarted position.id }
  (db5, position, activeDrive, activeChargingSession)

/-- One telemetry submission: the vehicle, the transformed snapshot and its
timestamp. -/
structure Submission where
  vehicle_id : Nat
  transformed : Transformed
  timestamp : Int
deriving DecidableEq

/-- Sequential processing of a list of submissions starting from a store. -/
def processFrom (db : Db) (subs : List Submission) : Db :=
  subs.foldl (fun s sub =>
    (process_telemetry_data s sub.vehicle_id sub.transformed sub.timestamp).1) db

/-- Sequential processing from the initial (empty) store. -/
def processAll (subs : List Submission) : Db :=
  processFrom initDb subs

/-! ### Concrete scenarios used by the claims -/

/-- A Park snapshot with a given odometer reading. -/
def parkT (odo : Option ℚ) : Transformed :=
  { emptyTransformed with gear_position := some "P", odometer := odo }

/-- A gear-Drive snapshot: speed 30, odometer `o`. -/
def driveT (o : ℚ) : Transformed :=
  { emptyTransformed with
    gear_position := some "D"
    speed := some 30
    odometer := some o }

/-- A snapshot with a given decoded charging flag. -/
def chargeT (flag : Option Bool) : Transformed :=
  { emptyTransformed with
    is_charging := flag
    battery_level := some 40
    charger_power := some 7 }

/-- A Park snapshot for vehicle 1 with a given odometer reading. -/
def parkSubmission (odo : Option ℚ) (ts : Int) : Submission :=
  ⟨1, parkT odo, ts⟩

/-- The middle snapshot of the drive-lifecycle scenario: gear Drive,
speed 30, odometer `o`. -/
def driveSubmission (o : ℚ) (ts : Int) : Submission :=
  ⟨1, driveT o, ts⟩

/-- The drive-lifecycle scenario: Park, then Drive (speed 30, odometer `o`),
then Park ten seconds later with the odometer advanced by 1.0. -/
def driveScenario (o : ℚ) : List Submission :=
  [parkSubmission none 0, driveSubmission o 100, parkSubmission (some (o + 1)) 110]

/-- The outcome the drive-lifecycle claim describes: the three persisted
snapshots carry owning-drive ids `none`, `some 1`, `none`; drive 1 is closed
at the third timestamp with distance 1 and duration 0 minutes. -/
def driveScenarioOutcome (o : ℚ) : Prop :=
  ((processAll (driveScenario o)).positions.map (fun p => p.drive_id)) =
      [none, some 1, none]
  ∧ ((processAll (driveScenario o)).drives.map (fun d => (d.id, d.end_date))) =
      [(1, some 110)]
  ∧ ((processAll (driveScenario o)).drives.map (fun d => d.distance)) = [some 1]
  ∧ ((processAll (driveScenario o)).drives.map (fun d => d.duration_min)) = [some 0]

/-- A snapshot for vehicle 1 with a given decoded charging flag. -/
def chargingSubmission (flag : Option Bool) (ts : Int) : Submission :=
  ⟨1, chargeT flag, ts⟩

/-- The charging-lifecycle scenario: flags false, then true, then false. -/
def chargingScenario : List Submission :=
  [chargingSubmission (some false) 0, chargingSubmission (some true) 60,
   chargingSubmission (some false) 180]

/-- The outcome the charging-lifecycle claim describes: exactly one session,
opened at the second submission and closed at the third, and exactly one
charging data point, produced by the middle submission for that session. -/
def chargingScenarioOutcome : Prop :=
  ((processAll chargingScenario).sessions.map (fun s => (s.id, s.start_date, s.end_date))) =
      [(1, 60, some 180)]
  ∧ ((processAll chargingScenario).dataPoints.map
      (fun d => (d.charging_session_id, d.timestamp))) = [(1, 60)]

/-! ### Intermediate states of the drive-lifecycle scenario -/

/-- The drive opened by the second submission of the drive scenario. -/
def drv1 (o : ℚ) : Drive :=
  { id := 1
    vehicle_id := 1
    start_date := 100
    end_date := none
    start_position_id := none
    end_position_id := none
    distance := none
    duration_min := none
    speed_max := none
    power_max := none
    power_min := none
    power_avg := none
    start_km := some o
    end_km := none
    start_battery_range_km := none
    end_battery_range_km := none
    outside_temp_avg := none }

/-- The opened drive after its start-position patch. -/
def drv1p (o : ℚ) : Drive :=
  { drv1 o with start_position_id := some 2 }

/-- The same drive closed by the third submission: end fields from the Park
snapshot and the aggregates over its single position. -/
def closedDrv (o : ℚ) : Drive :=
  { drv1p o with
    end_date := some 110
    end_km := some (o + 1)
    speed_max := some 30
    distance := some 1
    duration_min := some 0
    start_position_id := some 2
    end_position_id := some 2 }

/-- First persisted snapshot of the drive scenario. -/
def sp1 : Position := create_position 1 1 0 (parkT none) none

/-- Second persisted snapshot of the drive scenario. -/
def sp2 (o : ℚ) : Position := create_position 2 1 100 (driveT o) (some (drv1 o))

/-- Third persisted snapshot of the drive scenario. -/
def sp3 (o : ℚ) : Position := create_position 3 1 110 (parkT (some (o + 1))) none

/-- Store after the first submission of the drive scenario. -/
def sdb1 : Db :=
  { initDb with positions := [sp1], nextPositionId := 2 }

/-- Store after the second submission of the drive scenario. -/
def sdb2 (o : ℚ) : Db :=
  { initDb with
    drives := [drv1p o]
    positions := [sp1, sp2 o]
    nextDriveId := 2
    nextPositionId := 3 }

/-- Store after the third submission of the drive scenario. -/
def sdb3 (o : ℚ) : Db :=
  { initDb with
    drives := [closedDrv o]
    positions := [sp1, sp2 o, sp3 o]
    nextDriveId := 2
    nextPositionId := 4 }

/-! ### transformer.py over Python values

`transform_telemetry_data` receives an arbitrary parsed JSON payload
(`devices: Dict[str, Any]`), so its inputs are modelled by a JSON-like value
type and the function runs in `Except PyErr`: attribute access (`.get`) on a
non-dict raises `AttributeError`, `float(...)` on a non-numeric raises
(numeric-string parsing is not modelled: strings are treated as raising
`ValueError`, and no claim below depends on string leaves), and membership of
an unhashable value (list/dict) in a Python `set` — as in `is_error_value`
and `to_boolean` — raises `TypeError`. -/

/-- The Python runtime errors the transformer can raise. -/
inductive PyErr where
  | attributeError : PyErr
  | typeError : PyErr
  | valueError : PyErr
deriving DecidableEq

/-- A parsed JSON / Python value. -/
inductive PyVal where
  | pynull : PyVal
  | pybool : Bool → PyVal
  | pyint : Int → PyVal
  | pyfloat : ℚ → PyVal
  | pystr : String → PyVal
  | pylist : List PyVal → PyVal
  | pydict : List (String × PyVal) → PyVal

/-- Is the value Python `None`? -/
def isPyNull : PyVal → Bool
  | .pynull => true
  | _ => false

/-- Python truthiness of a value. -/
def pyTruthy : PyVal → Bool
  | .pynull => false
  | .pybool b => b
  | .pyint n => n ≠ 0
  | .pyfloat q => q ≠ 0
  | .pystr s => s ≠ ""
  | .pylist l => !l.isEmpty
  | .pydict l => !l.isEmpty

/-- Python `a or b`. -/
def pyOr (a b : PyVal) : PyVal :=
  if pyTruthy a then a else b

/-- `dict.get(k, default)` on a known dict (a present null entry is
returned as null; only a missing key yields the default). -/
def dictGet (es : List (String × PyVal)) (k : String) (dflt : PyVal) : PyVal :=
  match es.lookup k with
  | some v => v
  | none => dflt

/-- `value.get(k, default)` on an arbitrary value: `AttributeError` unless
the value is a dict. -/
def pyGet (v : PyVal) (k : String) (dflt : PyVal) : Except PyErr PyVal :=
  match v with
  | .pydict es => pure (dictGet es k dflt)
  | _ => throw .attributeError

/-- `value.get(k)` (default `None`). -/
def pyGetOpt (v : PyVal) (k : String) : Except PyErr PyVal :=
  pyGet v k .pynull

/-- `get_nested_value(data, k1, k2)` (`transformer.py` lines 17-24): safe
two-level lookup, `None` on any non-dict or missing key. -/
def get_nested_value2 (data : PyVal) (k1 k2 : String) : PyVal :=
  match data with
  | .pydict es =>
    match es.lookup k1 with
    | some (.pydict es2) =>
      match es2.lookup k2 with
      | some v2 => v2
      | none => .pynull
    | some _ => .pynull
    | none => .pynull
  | _ => .pynull

/-- Python `==` between a value and an int: numeric equality for ints,
floats and bools, `False` for everything else (never raises). -/
def pyEqInt (v : PyVal) (n : Int) : Bool :=
  match v with
  | .pyint m => m = n
  | .pyfloat q => q = (n : ℚ)
  | .pybool b => (if b then (1 : Int) else 0) = n
  | _ => false

/-- Python `value in {set of ints}`: hashes the value, so lists and dicts
raise `TypeError`. -/
def pyMemIntList (l : List Int) (v : PyVal) : Except PyErr Bool :=
  match v with
  | .pylist _ => throw .typeError
  | .pydict _ => throw .typeError
  | _ => pure (l.any (fun n => pyEqInt v n))

/-- `is_error_value` over Python values: `None` or membership in the
sentinel set (set membership may raise on unhashables). -/
def pyIsErrorValue (value : PyVal) : Except PyErr Bool :=
  match value with
  | .pynull => pure true
  | _ => pyMemIntList ERROR_VALUES_INT value

/-- `clean_value` over Python values. -/
def pyCleanValue (value : PyVal) : Except PyErr PyVal := do
  let e ← pyIsErrorValue value
  if e then pure .pynull else pure value

/-- Python `float(value)`. -/
def pyFloat : PyVal → Except PyErr ℚ
  | .pyint n => pure (n : ℚ)
  | .pyfloat q => pure q
  | .pybool b => pure (if b then 1 else 0)
  | .pystr _ => throw .valueError
  | .pynull => throw .typeError
  | .pylist _ => throw .typeError
  | .pydict _ => throw .typeError

/-- `convert_temperature_to_celsius` over Python values. -/
def pyConvertTemperatureToCelsius (value unit : PyVal) : Except PyErr PyVal := do
  let e ← pyIsErrorValue value
  if e then pure .pynull
  else if pyEqInt unit 2 then do
    let v ← pyFloat value
    pure (.pyfloat ((v - 32) * 5 / 9))
  else if pyEqInt unit 1 then do
    let v ← pyFloat value
    pure (.pyfloat v)
  else do
    let v ← pyFloat value
    pure (.pyfloat v)

/-- `convert_power_to_kw` over Python values. -/
def pyConvertPowerToKw (value unit : PyVal) : Except PyErr PyVal := do
  let e ← pyIsErrorValue value
  if e then pure .pynull
  else if pyEqInt unit 1 then do
    let v ← pyFloat value
    pure (.pyfloat v)
  else if pyEqInt unit 2 then do
    let v ← pyFloat value
    pure (.pyfloat (v * (7457 / 10000 : ℚ)))
  else do
    let v ← pyFloat value
    pure (.pyfloat v)

/-- `to_boolean` over Python values. -/
def pyToBoolean (trueValues : List Int) (falseValue : Option Int)
    (value : PyVal) : Except PyErr PyVal := do
  let e ← pyIsErrorValue value
  if e then pure .pynull
  else do
    let mem ← pyMemIntList trueValues value
    if mem then pure (.pybool true)
    else match falseValue with
      | some f => pure (.pybool (pyEqInt value f))
      | none => pure (.pybool false)

/-- The gear lookup table `gear_map.get(value, "Unknown")` (Python dict
lookup is by numeric hash equality, so `1.0` and `True` match the key 1). -/
def gearStr (value : PyVal) : String :=
  if pyEqInt value 1 then "P"
  else if pyEqInt value 2 then "R"
  else if pyEqInt value 3 then "N"
  else if pyEqInt value 4 then "D"
  else if pyEqInt value 5 then "S"
  else if pyEqInt value 6 then "M"
  else "Unknown"

/-- The wind-mode lookup table. -/
def windStr (value : PyVal) : String :=
  if pyEqInt value 0 then "Auto"
  else if pyEqInt value 1 then "Face"
  else if pyEqInt value 2 then "Face+Feet"
  else if pyEqInt value 3 then "Feet"
  else if pyEqInt value 4 then "Defrost+Feet"
  else if pyEqInt value 5 then "Defrost"
  else if pyEqInt value 6 then "Defrost+Face+Feet"
  else if pyEqInt value 7 then "Defrost+Face"
  else "Unknown"

/-- The cycle-mode lookup table. -/
def cycleStr (value : PyVal) : String :=
  if pyEqInt value 0 then "Fresh"
  else if pyEqInt value 1 then "Recirc"
  else "Unknown"

/-- `map_gear_position` over Python values (dict lookup hashes the key, but
unhashables were already rejected by the sentinel check). -/
def pyMapGearPosition (value : PyVal) : Except PyErr PyVal := do
  let e ← pyIsErrorValue value
  if e then pure .pynull
  else pure (.pystr (gearStr value))

/-- `map_wind_mode` over Python values. -/
def pyMapWindMode (value : PyVal) : Except PyErr PyVal := do
  let e ← pyIsErrorValue value
  if e then pure .pynull
  else pure (.pystr (windStr value))

/-- `map_cycle_mode` over Python values. -/
def pyMapCycleMode (value : PyVal) : Except PyErr PyVal := do
  let e ← pyIsErrorValue value
  if e then pure .pynull
  else pure (.pystr (cycleStr value))

/-- `normalize_tire_temp` over Python values (`transformer.py` 151-157). -/
def pyNormalizeTireTemp (value : PyVal) : Except PyErr PyVal := do
  let e ← pyIsErrorValue value
  if e then pure .pynull
  else do
    let v ← pyFloat value
    pure (.pyfloat (if 100 ≤ v then v / 10 else v))

/-- A tire-pressure field (`transformer.py` 136-139):
`float(raw)/10.0 if raw is not None and not is_error_value(raw) else None`. -/
def pyNormalizePressureField (raw : PyVal) : Except PyErr PyVal := do
  if isPyNull raw then pure .pynull
  else do
    let e ← pyIsErrorValue raw
    if e then pure .pynull
    else do
      let v ← pyFloat raw
      pure (.pyfloat (v / 10))

/-- Unit-descriptor extraction (`transformer.py` 65-73): entries "1", "2",
"4" of `getUnit(int)` when it is a dict, all `None` otherwise. -/
def extractUnits (unit_info : PyVal) : Except PyErr (PyVal × PyVal × PyVal) :=
  match unit_info with
  | .pydict es => do
    let temp_unit ← pyCleanValue (dictGet es "1" .pynull)
    let pressure_unit ← pyCleanValue (dictGet es "2" .pynull)
    let power_unit ← pyCleanValue (dictGet es "4" .pynull)
    pure (temp_unit, pressure_unit, power_unit)
  | _ => pure (.pynull, .pynull, .pynull)

/-- The passenger-setpoint fallback (`transformer.py` 118-124): convert the
raw passenger value when present and non-sentinel, else reuse the already
computed driver setpoint. -/
def passengerTemp (praw driver temp_unit : PyVal) : Except PyErr PyVal := do
  if isPyNull praw then pure driver
  else do
    let e ← pyIsErrorValue praw
    if e then pure driver
    else pyConvertTemperatureToCelsius praw temp_unit

/-- The PM2.5 overwrite (`transformer.py` 194-197): a list of length at
least two is decoded elementwise, anything else keeps the earlier values. -/
def pm25Assign (v i0 o0 : PyVal) : Except PyErr (PyVal × PyVal) :=
  match v with
  | .pylist (a :: b :: _) => do
    let i ← pyCleanValue a
    let o ← pyCleanValue b
    pure (i, o)
  | _ => pure (i0, o0)

/-- `transform_pm25` (`telemetry/devices/pm25.py` lines 6-25): decode
`getPM2p5Value` as `(inside, outside)` when it is a list of length at least
two, both absent otherwise. -/
def transform_pm25 (device_data : List (String × PyVal)) :
    Except PyErr (PyVal × PyVal) :=
  match dictGet device_data "getPM2p5Value" .pynull with
  | .pylist (a :: b :: _) => do
    let i ← pyCleanValue a
    let o ← pyCleanValue b
    pure (i, o)
  | _ => pure (.pynull, .pynull)

/-- `transform_telemetry_data` (`telemetry/transformer.py` lines 27-199),
with the source's evaluation order (the dict-literal fields first, then the
passenger fallback, tire pressures, tire temperatures, the first PM2.5
assignments, the charging fields and the final PM2.5 overwrite).  The pair
of first-pass PM2.5 assignments (lines 170-179) always evaluates to null —
the nested lookup uses the integer key `0`/`1`, which a JSON string-keyed
dict never contains, and is guarded to lists only — but each still performs
a `.get` on the PM2.5 section that raises when that section is not a dict. -/
def transform_telemetry_data (raw_data : List (String × PyVal)) :
    Except PyErr (List (String × PyVal)) := do
  let devices := dictGet raw_data "devices" (.pydict [])
  let location := pyOr (dictGet raw_data "location" .pynull) (.pydict [])
  let speed_device ← pyGet devices "BYDAutoSpeedDevice" (.pydict [])
  let statistic_device ← pyGet devices "BYDAutoStatisticDevice" (.pydict [])
  let gearbox_device ← pyGet devices "BYDAutoGearboxDevice" (.pydict [])
  let instrument_device ← pyGet devices "BYDAutoInstrumentDevice" (.pydict [])
  let _bodywork_device ← pyGet devices "BYDAutoBodyworkDevice" (.pydict [])
  let ac_device ← pyGet devices "BYDAutoAcDevice" (.pydict [])
  let charging_device ← pyGet devices "BYDAutoChargingDevice" (.pydict [])
  let _tire_device ← pyGet devices "BYDAutoTyreDevice" (.pydict [])
  let pm25_device ← pyGet devices "BYDAutoPM2p5Device" (.pydict [])
  let unit_info ← pyGet instrument_device "getUnit(int)" (.pydict [])
  let units ← extractUnits unit_info
  let temp_unit := units.1
  let power_unit := units.2.2
  let latitude ← pyCleanValue (← pyGetOpt location "latitude")
  let longitude ← pyCleanValue (← pyGetOpt location "longitude")
  let heading ← pyCleanValue (← pyGetOpt location "heading")
  let gps_accuracy ← pyCleanValue (← pyGetOpt location "accuracy")
  let speed ← pyCleanValue (← pyGetOpt speed_device "getCurrentSpeed")
  let odometer ← pyCleanValue (← pyGetOpt statistic_device "getTotalMileageValue")
  let battery_level ← pyCleanValue (← pyGetOpt statistic_device "getSOCBatteryPercentage")
  let battery_range_km ← pyCleanValue (← pyGetOpt statistic_device "getElecDrivingRangeValue")
  let outside_temp ← pyConvertTemperatureToCelsius
    (← pyGetOpt instrument_device "getOutCarTemperature") temp_unit
  let inside_temp ← pyConvertTemperatureToCelsius
    (← pyGetOpt instrument_device "getInCarTemperature") temp_unit
  let gear_position ← pyMapGearPosition
    (← pyGetOpt gearbox_device "getGearboxAutoModeType")
  let is_climate_on ← pyToBoolean [1] none (← pyGetOpt ac_device "getAcStartState")
  let driver_temp_setting ← pyConvertTemperatureToCelsius
    (get_nested_value2 ac_device "getTemprature(int)" "1") temp_unit
  let fan_level ← pyCleanValue (← pyGetOpt ac_device "getAcWindLevel")
  let wind_mode ← pyMapWindMode (← pyGetOpt ac_device "getAcWindMode")
  let cycle_mode ← pyMapCycleMode (← pyGetOpt ac_device "getAcCycleMode")
  let is_rear_defroster_on ← pyToBoolean [1] none
    (get_nested_value2 ac_device "getAcDefrostState(int)" "2")
  let passenger_temp_setting ← passengerTemp
    (get_nested_value2 ac_device "getTemprature(int)" "4") driver_temp_setting temp_unit
  let tire_pressure_fl ← pyNormalizePressureField
    (get_nested_value2 instrument_device "getWheelPressure(int)" "1")
  let tire_pressure_fr ← pyNormalizePressureField
    (get_nested_value2 instrument_device "getWheelPressure(int)" "2")
  let tire_pressure_rl ← pyNormalizePressureField
    (get_nested_value2 instrument_device "getWheelPressure(int)" "3")
  let tire_pressure_rr ← pyNormalizePressureField
    (get_nested_value2 instrument_device "getWheelPressure(int)" "4")
  let temp_fl ← pyNormalizeTireTemp
    (get_nested_value2 instrument_device "getWheelTemperature(int)" "1")
  let temp_fr ← pyNormalizeTireTemp
    (get_nested_value2 instrument_device "getWheelTemperature(int)" "2")
  let temp_rl ← pyNormalizeTireTemp
    (get_nested_value2 instrument_device "getWheelTemperature(int)" "3")
  let temp_rr ← pyNormalizeTireTemp
    (get_nested_value2 instrument_device "getWheelTemperature(int)" "4")
  let tire_temp_fl ← pyConvertTemperatureToCelsius temp_fl temp_unit
  let tire_temp_fr ← pyConvertTemperatureToCelsius temp_fr temp_unit
  let tire_temp_rl ← pyConvertTemperatureToCelsius temp_rl temp_unit
  let tire_temp_rr ← pyConvertTemperatureToCelsius temp_rr temp_unit
  let _g1 ← pyGetOpt pm25_device "getPM2p5Value"
  let pm25_inside_first ← pyCleanValue .pynull
  let _g2 ← pyGetOpt pm25_device "getPM2p5Value"
  let pm25_outside_first ← pyCleanValue .pynull
  let is_charging ← pyToBoolean [1] none (← pyGetOpt charging_device "getChargingState")
  let charging_gun_connected ← pyToBoolean [2] none
    (← pyGetOpt charging_device "getChargingGunState")
  let charger_power ← pyConvertPowerToKw
    (← pyGetOpt charging_device "getChargingPower") power_unit
  let pm25_value ← pyGetOpt pm25_device "getPM2p5Value"
  let pm25 ← pm25Assign pm25_value pm25_inside_first pm25_outside_first
  pure
    [("latitude", latitude), ("longitude", longitude), ("heading", heading),
     ("gps_accuracy", gps_accuracy), ("speed", speed), ("odometer", odometer),
     ("battery_level", battery_level), ("battery_range_km", battery_range_km),
     ("outside_temp", outside_temp), ("inside_temp", inside_temp),
     ("power", .pynull), ("gear_position", gear_position),
     ("is_climate_on", is_climate_on),
     ("driver_temp_setting", driver_temp_setting),
     ("passenger_temp_setting", passenger_temp_setting),
     ("fan_level", fan_level), ("wind_mode", wind_mode),
     ("cycle_mode", cycle_mode),
     ("is_rear_defroster_on", is_rear_defroster_on),
     ("is_front_defroster_on", .pynull),
     ("tire_pressure_fl", tire_pressure_fl),
     ("tire_pressure_fr", tire_pressure_fr),
     ("tire_pressure_rl", tire_pressure_rl),
     ("tire_pressure_rr", tire_pressure_rr),
     ("tire_temp_fl", tire_temp_fl), ("tire_temp_fr", tire_temp_fr),
     ("tire_temp_rl", tire_temp_rl), ("tire_temp_rr", tire_temp_rr),
     ("pm25_inside", pm25.1), ("pm25_outside", pm25.2),
     ("is_charging", is_charging),
     ("charging_gun_connected", charging_gun_connected),
     ("charger_power", charger_power), ("charge_energy_added", .pynull)]

/-! ### Well-formed payloads (the totality domain) -/

/-- Scalar Python values: null, bool, int, float. -/
def scalarVal : PyVal → Bool
  | .pynull => true
  | .pybool _ => true
  | .pyint _ => true
  | .pyfloat _ => true
  | _ => false

/-- Hashable Python values (everything except lists and dicts). -/
def hashableVal : PyVal → Bool
  | .pylist _ => false
  | .pydict _ => false
  | _ => true

/-- A dict whose values are all scalars. -/
def dictOfScalars : PyVal → Bool
  | .pydict es => es.all (fun kv => scalarVal kv.2)
  | _ => false

/-- A list whose elements are all scalars. -/
def listOfScalars : PyVal → Bool
  | .pylist l => l.all scalarVal
  | _ => false

/-- The device-section keys whose values are nested indexed tables. -/
def tableKeys : List String :=
  ["getUnit(int)", "getTemprature(int)", "getAcDefrostState(int)",
   "getWheelPressure(int)", "getWheelTemperature(int)"]

/-- A well-formed device-section entry: table keys carry scalars or
scalar-valued tables, the PM2.5 reading carries a scalar or a list of
scalars, every other field is a scalar. -/
def wfFieldEntry (kv : String × PyVal) : Bool :=
  if tableKeys.contains kv.1 then scalarVal kv.2 || dictOfScalars kv.2
  else if kv.1 = "getPM2p5Value" then scalarVal kv.2 || listOfScalars kv.2
  else scalarVal kv.2

/-- A well-formed device section: a dict of well-formed entries. -/
def wfSectionVal : PyVal → Bool
  | .pydict es => es.all wfFieldEntry
  | _ => false

/-- A well-formed payload: the `devices` entry is absent or a dict of
well-formed sections, and the `location` entry is absent, null, or a dict of
scalars. -/
def wfPayload (raw : List (String × PyVal)) : Bool :=
  (match raw.lookup "devices" with
   | none => true
   | some (.pydict secs) => secs.all (fun kv => wfSectionVal kv.2)
   | some _ => false)
  &&
  (match raw.lookup "location" with
   | none => true
   | some .pynull => true
   | some (.pydict es) => es.all (fun kv => scalarVal kv.2)
   | some _ => false)

/-- Total companion of `pyIsErrorValue` on hashable values. -/
def pyIsErrorCore (value : PyVal) : Bool :=
  match value with
  | .pynull => true
  | _ => ERROR_VALUES_INT.any (fun n => pyEqInt value n)

/-- Total companion of `pyCleanValue` on hashable values. -/
def pyCleanCore (value : PyVal) : PyVal :=
  if pyIsErrorCore value then .pynull else value

/-- Total companion of `pyFloat` on non-null scalars. -/
def scalarToQ : PyVal → ℚ
  | .pyint n => (n : ℚ)
  | .pyfloat q => q
  | .pybool b => if b then 1 else 0
  | _ => 0

/-- Total companion of `pyConvertTemperatureToCelsius` on scalars. -/
def pyConvertTempCore (value unit : PyVal) : PyVal :=
  if pyIsErrorCore value then .pynull
  else if pyEqInt unit 2 then .pyfloat ((scalarToQ value - 32) * 5 / 9)
  else .pyfloat (scalarToQ value)

/-- Total companion of `pyConvertPowerToKw` on scalars. -/
def pyConvertPowerCore (value unit : PyVal) : PyVal :=
  if pyIsErrorCore value then .pynull
  else if pyEqInt unit 1 then .pyfloat (scalarToQ value)
  else if pyEqInt unit 2 then .pyfloat (scalarToQ value * (7457 / 10000 : ℚ))
  else .pyfloat (scalarToQ value)

/-- Total companion of `pyToBoolean` on hashables. -/
def pyToBooleanCore (trueValues : List Int) (falseValue : Option Int)
    (value : PyVal) : PyVal :=
  if pyIsErrorCore value then .pynull
  else if trueValues.any (fun n => pyEqInt value n) then .pybool true
  else match falseValue with
    | some f => .pybool (pyEqInt value f)
    | none => .pybool false

/-- Total companion of `pyMapGearPosition` on hashables. -/
def pyGearCore (value : PyVal) : PyVal :=
  if pyIsErrorCore value then .pynull else .pystr (gearStr value)

/-- Total companion of `pyMapWindMode` on hashables. -/
def pyWindCore (value : PyVal) : PyVal :=
  if pyIsErrorCore value then .pynull else .pystr (windStr value)

/-- Total companion of `pyMapCycleMode` on hashables. -/
def pyCycleCore (value : PyVal) : PyVal :=
  if pyIsErrorCore value then .pynull else .pystr (cycleStr value)

/-- Total companion of `pyNormalizeTireTemp` on scalars. -/
def pyTireTempCore (value : PyVal) : PyVal :=
  if pyIsErrorCore value then .pynull
  else .pyfloat (if 100 ≤ scalarToQ value then scalarToQ value / 10
    else scalarToQ value)

/-- Total companion of `pyNormalizePressureField` on scalars. -/
def pyPressureCore (raw : PyVal) : PyVal :=
  if isPyNull raw then .pynull
  else if pyIsErrorCore raw then .pynull
  else .pyfloat (scalarToQ raw / 10)

/-- Total companion of `extractUnits`. -/
def extractUnitsCore (unit_info : PyVal) : PyVal × PyVal × PyVal :=
  match unit_info with
  | .pydict es =>
    (pyCleanCore (dictGet es "1" .pynull),
     pyCleanCore (dictGet es "2" .pynull),
     pyCleanCore (dictGet es "4" .pynull))
  | _ => (.pynull, .pynull, .pynull)

/-- Total companion of `passengerTemp` on scalar raw values. -/
def passengerTempCore (praw driver temp_unit : PyVal) : PyVal :=
  if isPyNull praw then driver
  else if pyIsErrorCore praw then driver
  else pyConvertTempCore praw temp_unit

/-- Total companion of `pm25Assign` on scalars and scalar lists. -/
def pm25AssignCore (v i0 o0 : PyVal) : PyVal × PyVal :=
  match v with
  | .pylist (a :: b :: _) => (pyCleanCore a, pyCleanCore b)
  | _ => (i0, o0)

/-- A store with one open charging session, used to exercise the
while-charging append behaviour. -/
def wSession : ChargingSession :=
  { id := 5
    vehicle_id := 3
    start_date := 50
    end_date := none
    start_battery_level := some 10
    end_battery_level := none
    duration_min := none }

/-- A store holding only `wSession`. -/
def wDb : Db :=
  { drives := []
    sessions := [wSession]
    positions := []
    dataPoints := []
    nextDriveId := 1
    nextSessionId := 6
    nextPositionId := 1 }

/-- A payload whose speed section is present but null: `devices.get` then
returns the stored null, and the subsequent `.get` on it raises. -/
def nullSectionPayload : List (String × PyVal) :=
  [("devices", .pydict [("BYDAutoSpeedDevice", .pynull)])]

/-- A small well-formed payload: one scalar speed field, null location. -/
def okPayload : List (String × PyVal) :=
  [("devices", .pydict [("BYDAutoSpeedDevice",
      .pydict [("getCurrentSpeed", .pyint 30)])]),
   ("location", .pynull)]

/-- A PM2.5 section whose reading is a three-element list. -/
def pm25ThreeList : List (String × PyVal) :=
  [("getPM2p5Value", .pylist [.pyint 5, .pyint 7, .pyint 9])]

/-! ## Lemmas and theorems -/

/-- The fold underlying the `ORDER BY start_date DESC LIMIT 1` query never
forgets a non-`none` accumulator. -/
lemma latestDriveByStart_foldl_some (l : List Drive) :
    ∀ a : Drive, ∃ e,
      l.foldl (fun acc d =>
        match acc with
        | none => some d
        | some x => if x.start_date ≤ d.start_date then some d else some x) (some a) =
        some e := by
  induction l with
  | nil => exact fun a => ⟨a, rfl⟩
  | cons b l ih =>
    intro a
    by_cases h : a.start_date ≤ b.start_date
    · simpa [h] using ih b
    · simpa [h] using ih a

/-- The active-drive query returns `none` exactly when the vehicle has no
open drive. -/
lemma findActiveDrive_eq_none_iff (db : Db) (v : Nat) :
    findActiveDrive db v = none ↔ openDrivesFor db v = [] := by
  unfold findActiveDrive latestDriveByStart
  cases h : openDrivesFor db v with
  | nil => simp
  | cons a l =>
    simp only [List.foldl_cons]
    obtain ⟨e, he⟩ := latestDriveByStart_foldl_some l a
    simp [he]

/-- Mapping a function that can only falsify the filter predicate does not
increase the filtered length. -/
lemma length_filter_map_le {α : Type} (l : List α) (f : α → α) (p : α → Bool)
    (h : ∀ x, p (f x) = true → p x = true) :
    ((l.map f).filter p).length ≤ (l.filter p).length := by
  induction l with
  | nil => simp
  | cons a l ih =>
    simp only [List.map_cons, List.filter_cons]
    cases hfa : p (f a) with
    | true =>
      rw [h a hfa]
      simpa using Nat.succ_le_succ ih
    | false =>
      cases hpa : p a with
      | true => simpa using Nat.le_trans ih (Nat.le_succ _)
      | false => simpa using ih

/-- `_calculate_drive_aggregates` only fills aggregate columns: the drive's
identity, vehicle and end fields are untouched. -/
lemma calculate_drive_aggregates_preserves (db : Db) (d : Drive) :
    (calculate_drive_aggregates db d).id = d.id ∧
    (calculate_drive_aggregates db d).vehicle_id = d.vehicle_id ∧
    (calculate_drive_aggregates db d).end_date = d.end_date := by
  unfold calculate_drive_aggregates
  cases hps : sortPositionsByTs
      (List.filter (fun p => decide (p.drive_id = some d.id)) db.positions) with
  | nil => simp [hps]
  | cons first tail =>
    simp only [hps]
    repeat' split
    all_goals exact ⟨rfl, rfl, rfl⟩

/-- `_handle_drive_detection` does exactly one of three things: it starts a
drive, it closes the existing one on Park, or it leaves the store alone. -/
lemma handle_drive_detection_spec (db : Db) (v : Nat) (ts : Int)
    (t : Transformed) (ex : Option Drive) :
    ((gearInDriveModes t.gear_position && ex.isNone) = true ∧
      handle_drive_detection db v ts t ex =
        ({ db with
             drives := db.drives ++ [newDriveRecord db v ts t]
             nextDriveId := db.nextDriveId + 1 },
          some (newDriveRecord db v ts t), true)) ∨
    ((∃ d, t.gear_position = some "P" ∧ ex = some d ∧
      handle_drive_detection db v ts t ex =
        ({ db with drives := db.drives.map (fun x =>
             if x.id = (closedDriveRecord db ts t d).id
             then closedDriveRecord db ts t d else x) },
          none, false))) ∨
    handle_drive_detection db v ts t ex = (db, ex, false) := by
  unfold handle_drive_detection
  by_cases hc : (gearInDriveModes t.gear_position && ex.isNone) = true
  · exact Or.inl ⟨hc, by simp [hc]⟩
  · rw [if_neg hc]
    match hg : t.gear_position, hex : ex with
    | some "P", some d => exact Or.inr (Or.inl ⟨d, rfl, rfl, rfl⟩)
    | none, _ => right; right; split <;> simp_all
    | some g, none => right; right; split <;> simp_all
    | some g, some d =>
      right
      by_cases hP : g = "P"
      · subst hP; exact Or.inl ⟨d, rfl, rfl, rfl⟩
      · right; split <;> simp_all

/-- `_handle_charging_session` touches only the sessions table and the
session counter. -/
lemma handle_charging_session_preserves (db : Db) (v : Nat) (ts : Int)
    (t : Transformed) :
    ((handle_charging_session db v ts t).1).drives = db.drives ∧
    ((handle_charging_session db v ts t).1).positions = db.positions ∧
    ((handle_charging_session db v ts t).1).dataPoints = db.dataPoints ∧
    ((handle_charging_session db v ts t).1).nextDriveId = db.nextDriveId ∧
    ((handle_charging_session db v ts t).1).nextPositionId = db.nextPositionId := by
  unfold handle_charging_session
  dsimp only
  repeat' split
  all_goals exact ⟨rfl, rfl, rfl, rfl, rfl⟩

/-- The store produced by one processing step, drives projection: the drives
after drive detection, with the start-position patch applied. -/
lemma process_telemetry_data_drives (db : Db) (v : Nat) (t : Transformed)
    (ts : Int) :
    ∃ pid,
      ((process_telemetry_data db v t ts).1).drives =
        patchStartPosition
          (((handle_drive_detection db v ts t (findActiveDrive db v)).1).drives)
          ((handle_drive_detection db v ts t (findActiveDrive db v)).2.1)
          ((handle_drive_detection db v ts t (findActiveDrive db v)).2.2) pid := by
  unfold process_telemetry_data
  dsimp only
  rw [(handle_charging_session_preserves
    ((handle_drive_detection db v ts t (findActiveDrive db v)).1) v ts t).1]
  exact ⟨_, rfl⟩

/-- On nonnegative input, Python truncation agrees with the floor. -/
lemma pyIntOfRat_eq_floor (q : ℚ) (h : 0 ≤ q) : pyIntOfRat q = ⌊q⌋ := by
  unfold pyIntOfRat
  rw [if_neg (not_lt.mpr h)]
  rfl

/-- Drive start branch of `_handle_drive_detection`. -/
lemma handle_drive_detection_start (db : Db) (v : Nat) (ts : Int)
    (t : Transformed) (h1 : gearInDriveModes t.gear_position = true) :
    handle_drive_detection db v ts t none =
      ({ db with
          drives := db.drives ++ [newDriveRecord db v ts t]
          nextDriveId := db.nextDriveId + 1 },
        some (newDriveRecord db v ts t), true) := by
  unfold handle_drive_detection
  simp [h1]

/-- Drive end branch of `_handle_drive_detection`. -/
lemma handle_drive_detection_close (db : Db) (v : Nat) (ts : Int)
    (t : Transformed) (d : Drive) (h1 : t.gear_position = some "P") :
    handle_drive_detection db v ts t (some d) =
      ({ db with
          drives := db.drives.map (fun x =>
            if x.id = (closedDriveRecord db ts t d).id
            then closedDriveRecord db ts t d else x) },
        none, false) := by
  unfold handle_drive_detection
  rw [h1]
  simp [gearInDriveModes]

/-- No-transition branch of `_handle_drive_detection` with gear Park and no
open drive. -/
lemma handle_drive_detection_park_none (db : Db) (v : Nat) (ts : Int)
    (t : Transformed) (h1 : t.gear_position = some "P") :
    handle_drive_detection db v ts t none = (db, none, false) := by
  unfold handle_drive_detection
  rw [h1]
  simp [gearInDriveModes]

/-- No-transition branch of `_handle_drive_detection` with an absent gear. -/
lemma handle_drive_detection_no_gear (db : Db) (v : Nat) (ts : Int)
    (t : Transformed) (ex : Option Drive) (h1 : t.gear_position = none) :
    handle_drive_detection db v ts t ex = (db, ex, false) := by
  unfold handle_drive_detection
  rw [h1]
  cases ex <;> simp [gearInDriveModes]

/-- Idle branch of `_handle_charging_session`: no open session and the flag
is not `True`. -/
lemma handle_charging_session_idle (db : Db) (v : Nat) (ts : Int)
    (t : Transformed) (h1 : openSessionsFor db v = [])
    (h2 : t.is_charging ≠ some true) :
    handle_charging_session db v ts t = (db, none) := by
  unfold handle_charging_session latestSessionByStart
  rw [h1]
  simp [h2]

/-- Charging start branch of `_handle_charging_session`. -/
lemma handle_charging_session_start (db : Db) (v : Nat) (ts : Int)
    (t : Transformed) (h1 : openSessionsFor db v = [])
    (h2 : t.is_charging = some true) :
    handle_charging_session db v ts t =
      ({ db with
          sessions := db.sessions ++ [newSessionRecord db v ts t]
          nextSessionId := db.nextSessionId + 1 },
        some (newSessionRecord db v ts t)) := by
  unfold handle_charging_session latestSessionByStart
  rw [h1]
  simp [h2]

/-- Charging end branch of `_handle_charging_session`. -/
lemma handle_charging_session_close (db : Db) (v : Nat) (ts : Int)
    (t : Transformed) (s : ChargingSession)
    (h1 : latestSessionByStart (openSessionsFor db v) = some s)
    (h2 : t.is_charging = some false) :
    handle_charging_session db v ts t =
      ({ db with
          sessions := db.sessions.map (fun x =>
            if x.id = (closedSessionRecord ts t s).id
            then closedSessionRecord ts t s else x) },
        none) := by
  unfold handle_charging_session
  rw [h1]
  simp [h2]

/-- Continue branch of `_handle_charging_session`: an open session exists
and the flag is not `False`. -/
lemma handle_charging_session_continue (db : Db) (v : Nat) (ts : Int)
    (t : Transformed) (s : ChargingSession)
    (h1 : latestSessionByStart (openSessionsFor db v) = some s)
    (h2 : t.is_charging ≠ some false) :
    handle_charging_session db v ts t = (db, some s) := by
  unfold handle_charging_session
  rw [h1]
  simp [h2]

/-- One processing step, assembled from the results of drive detection and
charging handling. -/
lemma process_telemetry_data_eq (db db1 db2 : Db) (v : Nat)
    (t : Transformed) (ts : Int) (ad : Option Drive) (st : Bool)
    (as : Option ChargingSession)
    (hdd : handle_drive_detection db v ts t (findActiveDrive db v) = (db1, ad, st))
    (hcs : handle_charging_session db1 v ts t = (db2, as)) :
    process_telemetry_data db v t ts =
      ({ db2 with
          dataPoints := db2.dataPoints ++ newChargingDataPoints as t ts
          positions := db2.positions ++
            [create_position db2.nextPositionId v ts t ad]
          nextPositionId := db2.nextPositionId + 1
          drives := patchStartPosition db2.drives ad st
            (create_position db2.nextPositionId v ts t ad).id },
        create_position db2.nextPositionId v ts t ad, ad, as) := by
  unfold process_telemetry_data
  dsimp only
  rw [hdd]
  dsimp only
  rw [hcs]

/-- The start-position patch can only falsify the open-drive predicate. -/
lemma patchStartPosition_filter_le (l : List Drive) (ad : Option Drive)
    (st : Bool) (pid : Nat) (w : Nat) :
    ((patchStartPosition l ad st pid).filter (openDrivePred w)).length ≤
      (l.filter (openDrivePred w)).length := by
  unfold patchStartPosition
  match ad, st with
  | some d, true =>
    refine length_filter_map_le l _ _ (fun x hx => ?_)
    by_cases h : x.id = d.id <;> simp_all [openDrivePred]
  | some d, false => exact Nat.le_refl _
  | none, _ => exact Nat.le_refl _

/-- The open-drive invariant: at most one open drive for every vehicle. -/
def atMostOneOpenDrive (db : Db) : Prop :=
  ∀ v, (openDrivesFor db v).length ≤ 1

/-- One processing step preserves the open-drive invariant. -/
lemma process_telemetry_data_atMostOne (db : Db) (v : Nat) (t : Transformed)
    (ts : Int) (h : atMostOneOpenDrive db) :
    atMostOneOpenDrive (process_telemetry_data db v t ts).1 := by
  intro w
  obtain ⟨pid, hdrv⟩ := process_telemetry_data_drives db v t ts
  unfold openDrivesFor
  rw [hdrv]
  refine Nat.le_trans (patchStartPosition_filter_le _ _ _ pid w) ?_
  rcases handle_drive_detection_spec db v ts t (findActiveDrive db v) with
    ⟨hc, heq⟩ | ⟨d, hg, hex, heq⟩ | heq
  · rw [heq]
    have hnone : findActiveDrive db v = none := by
      cases hfd : findActiveDrive db v with
      | none => rfl
      | some d => rw [hfd] at hc; simp at hc
    have hopen : openDrivesFor db v = [] :=
      (findActiveDrive_eq_none_iff db v).mp hnone
    dsimp only
    rw [List.filter_append]
    by_cases hw : w = v
    · subst hw
      unfold openDrivesFor at hopen
      rw [hopen]
      simp [newDriveRecord, openDrivePred]
    · have : openDrivePred w (newDriveRecord db v ts t) = false := by
        simp [newDriveRecord, openDrivePred]
        intro hvw
        exact absurd hvw.symm hw
      simp only [List.length_append, List.filter_cons, this, List.filter_nil,
        List.length_nil, Nat.add_zero]
      exact h w
  · rw [heq]
    dsimp only
    refine Nat.le_trans (length_filter_map_le _ _ _ (fun x hx => ?_)) (h w)
    by_cases hid : x.id = (closedDriveRecord db ts t d).id
    · exfalso
      rw [if_pos hid] at hx
      have hend := (calculate_drive_aggregates_preserves db
        { d with
          end_date := some ts
          end_km := t.odometer
          end_battery_range_km := t.battery_range_km }).2.2
      unfold closedDriveRecord at hx
      simp [openDrivePred, hend] at hx
    · rwa [if_neg hid] at hx
  · rw [heq]
    exact h w

/-- Processing a list of submissions preserves the open-drive invariant. -/
lemma processFrom_atMostOne (subs : List Submission) (db : Db)
    (h : atMostOneOpenDrive db) : atMostOneOpenDrive (processFrom db subs) := by
  induction subs generalizing db with
  | nil => exact h
  | cons s rest ih =>
    exact ih _ (process_telemetry_data_atMostOne db s.vehicle_id s.transformed
      s.timestamp h)

/-- `_handle_drive_detection` touches only the drives table and the drive
counter. -/
lemma handle_drive_detection_preserves (db : Db) (v : Nat) (ts : Int)
    (t : Transformed) (ex : Option Drive) :
    ((handle_drive_detection db v ts t ex).1).sessions = db.sessions ∧
    ((handle_drive_detection db v ts t ex).1).positions = db.positions ∧
    ((handle_drive_detection db v ts t ex).1).dataPoints = db.dataPoints ∧
    ((handle_drive_detection db v ts t ex).1).nextSessionId = db.nextSessionId ∧
    ((handle_drive_detection db v ts t ex).1).nextPositionId = db.nextPositionId := by
  unfold handle_drive_detection
  dsimp only
  repeat' split
  all_goals exact ⟨rfl, rfl, rfl, rfl, rfl⟩

/-- No data point is recorded without an active session. -/
lemma newChargingDataPoints_none (t : Transformed) (ts : Int) :
    newChargingDataPoints none t ts = [] := rfl

/-- Exactly one data point is recorded when a session is active and the flag
is `True`. -/
lemma newChargingDataPoints_charging (s : ChargingSession) (t : Transformed)
    (ts : Int) (h : t.is_charging = some true) :
    newChargingDataPoints (some s) t ts =
      [{ charging_session_id := s.id
         timestamp := ts
         battery_level := t.battery_level
         charge_energy_added := t.charge_energy_added
         charger_power := t.charger_power
         outside_temp := t.outside_temp }] := by
  unfold newChargingDataPoints
  rw [h]

/-- The start-position patch is the identity when no drive just started. -/
lemma patchStartPosition_not_started (l : List Drive) (ad : Option Drive)
    (pid : Nat) : patchStartPosition l ad false pid = l := by
  cases ad <;> rfl

/-- C1.  For every finite sequence of snapshot submissions processed
sequentially from the empty store, every vehicle has at most one open drive
(a `Drive` row with `end_date` absent) after each step; since every prefix of
a submission list is itself a submission list, this covers the state after
every intermediate step, and in particular any number of consecutive
drive-gear snapshots without an intervening Park never yields more than one
open drive. -/
theorem atMostOneOpenDrive_processAll (subs : List Submission) (v : Nat) :
    (openDrivesFor (processAll subs) v).length ≤ 1 := by
  have hinit : atMostOneOpenDrive initDb := by
    intro w
    simp [openDrivesFor, initDb]
  exact processFrom_atMostOne subs initDb hinit v

/-! ### The drive-lifecycle scenario, step by step -/

/-- Whole minutes of ten seconds: zero. -/
lemma pyIntOfRat_ten_sixtieths : pyIntOfRat (((110 - 100 : Int) : ℚ) / 60) = 0 := by
  rw [pyIntOfRat_eq_floor _ (by norm_num)]
  rw [Int.floor_eq_zero_iff]
  constructor <;> norm_num

/-- Whole minutes of one sixth of a minute: zero. -/
lemma pyIntOfRat_one_sixth : pyIntOfRat ((1 : ℚ) / 6) = 0 := by
  rw [pyIntOfRat_eq_floor _ (by norm_num)]
  rw [Int.floor_eq_zero_iff]
  constructor <;> norm_num

/-- Closing the scenario drive computes exactly the aggregates of
`closedDrv`: distance 1 (the odometer readings are nonzero) and duration 0. -/
lemma closedDriveRecord_scenario (o : ℚ) (ho : o ≠ 0) (ho1 : o + 1 ≠ 0) :
    closedDriveRecord (sdb2 o) 110 (parkT (some (o + 1))) (drv1p o) =
      closedDrv o := by
  unfold closedDriveRecord calculate_drive_aggregates
  have hfilter : (sdb2 o).positions.filter
      (fun p => decide (p.drive_id = some
        ({ drv1p o with
            end_date := some (110 : Int)
            end_km := (parkT (some (o + 1))).odometer
            end_battery_range_km := (parkT (some (o + 1))).battery_range_km } : Drive).id)) =
      [sp2 o] := by
    simp [sdb2, sp1, sp2, sp3, create_position, drv1p, drv1, parkT, driveT,
      emptyTransformed]
  rw [hfilter]
  simp only [sortPositionsByTs, List.foldr, insertPositionByTs]
  simp only [sp2, create_position, drv1p, drv1, parkT, driveT, emptyTransformed]
  simp only [List.filterMap]
  norm_num [pyTruthyQ, ho, ho1, pyIntOfRat_ten_sixtieths, pyIntOfRat_one_sixth,
    closedDrv, drv1p, drv1, parkT, driveT, emptyTransformed]

/-- Step 1 of the drive scenario: Park with an empty store. -/
lemma driveScenario_step1 :
    process_telemetry_data initDb 1 (parkT none) 0 = (sdb1, sp1, none, none) := by
  rw [process_telemetry_data_eq initDb initDb initDb 1 (parkT none) 0 none false none
    (handle_drive_detection_park_none initDb 1 0 (parkT none) rfl)
    (handle_charging_session_idle initDb 1 0 (parkT none) rfl (by decide))]
  rfl

/-- Step 2 of the drive scenario: gear Drive opens drive 1. -/
lemma driveScenario_step2 (o : ℚ) :
    process_telemetry_data sdb1 1 (driveT o) 100 =
      (sdb2 o, sp2 o, some (drv1 o), none) := by
  rw [process_telemetry_data_eq sdb1
    ({ sdb1 with drives := [drv1 o], nextDriveId := 2 })
    ({ sdb1 with drives := [drv1 o], nextDriveId := 2 })
    1 (driveT o) 100 (some (drv1 o)) true none
    (handle_drive_detection_start sdb1 1 100 (driveT o) rfl)
    (handle_charging_session_idle ({ sdb1 with drives := [drv1 o], nextDriveId := 2 })
      1 100 (driveT o) rfl (by simp [driveT, emptyTransformed]))]
  rfl

/-- Step 3 of the drive scenario: Park closes drive 1. -/
lemma driveScenario_step3 (o : ℚ) (ho : o ≠ 0) (ho1 : o + 1 ≠ 0) :
    process_telemetry_data (sdb2 o) 1 (parkT (some (o + 1))) 110 =
      (sdb3 o, sp3 o, none, none) := by
  have hclosed := closedDriveRecord_scenario o ho ho1
  have hmap : (sdb2 o).drives.map (fun x =>
      if x.id = (closedDriveRecord (sdb2 o) 110 (parkT (some (o + 1))) (drv1p o)).id
      then closedDriveRecord (sdb2 o) 110 (parkT (some (o + 1))) (drv1p o) else x) =
      [closedDrv o] := by
    rw [hclosed]
    simp [sdb2, drv1p, drv1, closedDrv]
  rw [process_telemetry_data_eq (sdb2 o)
    ({ sdb2 o with drives := (sdb2 o).drives.map (fun x =>
        if x.id = (closedDriveRecord (sdb2 o) 110 (parkT (some (o + 1))) (drv1p o)).id
        then closedDriveRecord (sdb2 o) 110 (parkT (some (o + 1))) (drv1p o) else x) })
    ({ sdb2 o with drives := (sdb2 o).drives.map (fun x =>
        if x.id = (closedDriveRecord (sdb2 o) 110 (parkT (some (o + 1))) (drv1p o)).id
        then closedDriveRecord (sdb2 o) 110 (parkT (some (o + 1))) (drv1p o) else x) })
    1 (parkT (some (o + 1))) 110 none false none
    (handle_drive_detection_close (sdb2 o) 1 110 (parkT (some (o + 1))) (drv1p o) rfl)
    (handle_charging_session_idle
      ({ sdb2 o with drives := (sdb2 o).drives.map (fun x =>
          if x.id = (closedDriveRecord (sdb2 o) 110 (parkT (some (o + 1))) (drv1p o)).id
          then closedDriveRecord (sdb2 o) 110 (parkT (some (o + 1))) (drv1p o) else x) })
      1 110 (parkT (some (o + 1))) rfl (by simp [parkT, emptyTransformed]))]
  rw [hmap]
  rfl

/-- C2 (amended).  For every nonzero odometer pair `o`, `o + 1`, the
Park / Drive / Park scenario persists owning-drive ids `none`, `some 1`,
`none`, and closes drive 1 with distance 1.0 and duration 0 minutes. -/
theorem driveScenario_correct (o : ℚ) (ho : o ≠ 0) (ho1 : o + 1 ≠ 0) :
    driveScenarioOutcome o := by
  have hfinal : processAll (driveScenario o) = sdb3 o := by
    show (process_telemetry_data
        ((process_telemetry_data
          ((process_telemetry_data initDb 1 (parkT none) 0).1)
          1 (driveT o) 100).1)
        1 (parkT (some (o + 1))) 110).1 = sdb3 o
    rw [driveScenario_step1]
    dsimp only
    rw [driveScenario_step2 o]
    dsimp only
    rw [driveScenario_step3 o ho ho1]
  unfold driveScenarioOutcome
  rw [hfinal]
  refine ⟨?_, ?_, ?_, ?_⟩ <;>
    simp [sdb3, sp1, sp2, sp3, create_position, closedDrv, drv1p, drv1]

/-- C2 counterexample.  With the odometer reading 0 at the drive start (and 1
at its end) — both readings present, the start reading zero — the drive
scenario does *not* produce the claimed outcome: `distance` is left absent
because `_calculate_drive_aggregates` gates the subtraction on Python
truthiness (`if drive.start_km and drive.end_km`), not on presence. -/
theorem driveScenario_zero_odometer_cex : ¬ driveScenarioOutcome 0 := by
  unfold driveScenarioOutcome
  decide

/-- Witness for the amended drive-lifecycle theorem at odometer 1000. -/
theorem driveScenario_correct_witness :
    (((1000 : ℚ) ≠ 0) ∧ ((1000 : ℚ) + 1 ≠ 0)) ∧ driveScenarioOutcome 1000 :=
  ⟨⟨by norm_num, by norm_num⟩,
    driveScenario_correct 1000 (by norm_num) (by norm_num)⟩

/-- C3.  The charging lifecycle: flags false, true, false open and close
exactly one session with exactly one data point from the middle submission;
and in general, a step taken while a vehicle has exactly one open session
and a `True` charging flag appends exactly one data point for that session
and never creates (or removes) a session. -/
theorem chargingLifecycle_correct :
    chargingScenarioOutcome ∧
    ∀ (db : Db) (v : Nat) (t : Transformed) (ts : Int) (s : ChargingSession),
      openSessionsFor db v = [s] → t.is_charging = some true →
      ((process_telemetry_data db v t ts).1).sessions = db.sessions ∧
      ((process_telemetry_data db v t ts).1).dataPoints = db.dataPoints ++
        [{ charging_session_id := s.id
           timestamp := ts
           battery_level := t.battery_level
           charge_energy_added := t.charge_energy_added
           charger_power := t.charger_power
           outside_temp := t.outside_temp }] := by
  constructor
  · exact ⟨by decide, by decide⟩
  · intro db v t ts s hopen hflag
    have hpres := handle_drive_detection_preserves db v ts t (findActiveDrive db v)
    have hopen1 : openSessionsFor
        ((handle_drive_detection db v ts t (findActiveDrive db v)).1) v = [s] := by
      unfold openSessionsFor at hopen ⊢
      rw [hpres.1]
      exact hopen
    have hlatest : latestSessionByStart (openSessionsFor
        ((handle_drive_detection db v ts t (findActiveDrive db v)).1) v) = some s := by
      rw [hopen1]
      rfl
    have hcs := handle_charging_session_continue
      ((handle_drive_detection db v ts t (findActiveDrive db v)).1) v ts t s hlatest
      (by rw [hflag]; simp)
    unfold process_telemetry_data
    dsimp only
    rw [hcs]
    dsimp only
    constructor
    · exact hpres.1
    · rw [newChargingDataPoints_charging s t ts hflag, hpres.2.2.1]

/-- Witness for the while-charging clause of the charging-lifecycle theorem,
at a concrete store with one open session. -/
theorem chargingLifecycle_correct_witness :
    (openSessionsFor wDb 3 = [wSession] ∧
      (chargeT (some true)).is_charging = some true) ∧
    (((process_telemetry_data wDb 3 (chargeT (some true)) 99).1).sessions =
        wDb.sessions ∧
      ((process_telemetry_data wDb 3 (chargeT (some true)) 99).1).dataPoints =
        wDb.dataPoints ++
        [{ charging_session_id := wSession.id
           timestamp := 99
           battery_level := (chargeT (some true)).battery_level
           charge_energy_added := (chargeT (some true)).charge_energy_added
           charger_power := (chargeT (some true)).charger_power
           outside_temp := (chargeT (some true)).outside_temp }]) :=
  ⟨⟨by decide, rfl⟩,
    chargingLifecycle_correct.2 wDb 3 (chargeT (some true)) 99 wSession
      (by decide) rfl⟩

/-! ### Sentinel filtering (C4) -/

/-- Sentinel integers cast to the rational sentinel set. -/
lemma mem_ERROR_VALUES_of_int (n : Int) (hn : n ∈ ERROR_VALUES_INT) :
    (n : ℚ) ∈ ERROR_VALUES := by
  fin_cases hn <;> norm_num [ERROR_VALUES]

/-- C4.  Every decoder that consumes raw integers maps every sentinel value
to absence, and likewise maps a missing or null input to absence; in
particular the temperature converter returns absence on a sentinel for every
unit code, so Fahrenheit conversion is never attempted on a sentinel. -/
theorem sentinel_decoders_absent :
    (∀ n : Int, n ∈ ERROR_VALUES_INT →
      clean_value (some (n : ℚ)) = none ∧
      map_gear_position (some n) = none ∧
      map_wind_mode (some n) = none ∧
      map_cycle_mode (some n) = none ∧
      (∀ tv fv, to_boolean tv fv (some n) = none) ∧
      (∀ u, convert_temperature_to_celsius (some (n : ℚ)) u = none) ∧
      (∀ u, convert_power_to_kw (some (n : ℚ)) u = none) ∧
      (∀ u, convert_pressure_to_bar (some (n : ℚ)) u = none) ∧
      convert_tire_pressure_kpa_to_bar (some (n : ℚ)) = none ∧
      normalize_tire_temp (some (n : ℚ)) = none ∧
      normalize_pressure (some (n : ℚ)) = none) ∧
    (clean_value none = none ∧
      map_gear_position none = none ∧
      map_wind_mode none = none ∧
      map_cycle_mode none = none ∧
      (∀ tv fv, to_boolean tv fv none = none) ∧
      (∀ u, convert_temperature_to_celsius none u = none) ∧
      (∀ u, convert_power_to_kw none u = none) ∧
      (∀ u, convert_pressure_to_bar none u = none) ∧
      convert_tire_pressure_kpa_to_bar none = none ∧
      normalize_tire_temp none = none ∧
      normalize_pressure none = none) := by
  constructor
  · intro n hn
    have hq := mem_ERROR_VALUES_of_int n hn
    refine ⟨?_, ?_, ?_, ?_, ?_, ?_, ?_, ?_, ?_, ?_, ?_⟩
    · simp [clean_value, is_error_value, hq]
    · simp [map_gear_position, hn]
    · simp [map_wind_mode, hn]
    · simp [map_cycle_mode, hn]
    · intro tv fv; simp [to_boolean, hn]
    · intro u; simp [convert_temperature_to_celsius, hq]
    · intro u; simp [convert_power_to_kw, hq]
    · intro u; simp [convert_pressure_to_bar, hq]
    · simp [convert_tire_pressure_kpa_to_bar, hq]
    · simp [normalize_tire_temp, hq]
    · simp [normalize_pressure, hq]
  · exact ⟨rfl, rfl, rfl, rfl, fun tv fv => rfl, fun u => rfl, fun u => rfl,
      fun u => rfl, rfl, rfl, rfl⟩

/-- Witness for the sentinel theorem at the sentinel `-1`, with the
Fahrenheit unit code (2) for the converters: no conversion is attempted. -/
theorem sentinel_decoders_absent_witness :
    ((-1 : Int) ∈ ERROR_VALUES_INT) ∧
    clean_value (some ((-1 : Int) : ℚ)) = none ∧
    map_gear_position (some (-1)) = none ∧
    to_boolean [1] none (some (-1)) = none ∧
    convert_temperature_to_celsius (some ((-1 : Int) : ℚ)) (some 2) = none ∧
    convert_power_to_kw (some ((-1 : Int) : ℚ)) (some 2) = none ∧
    normalize_tire_temp (some ((-1 : Int) : ℚ)) = none := by
  have hmem : (-1 : Int) ∈ ERROR_VALUES_INT := by decide
  have h := sentinel_decoders_absent.1 (-1) hmem
  exact ⟨hmem, h.1, h.2.1, h.2.2.2.2.1 [1] none, h.2.2.2.2.2.1 (some 2),
    h.2.2.2.2.2.2.1 (some 2), h.2.2.2.2.2.2.2.2.2.1⟩

/-! ### Temperature conversion (C8) -/

/-- C8.  For every non-sentinel value, unit code 2 converts Fahrenheit to
Celsius as `(v - 32) * 5 / 9` and every other unit code passes the value
through; moreover the converter with the unrecognized unit code 99 is
extensionally equal to the converter with unit code 1. -/
theorem temperature_conversion_correct :
    (∀ v : ℚ, v ∉ ERROR_VALUES →
      convert_temperature_to_celsius (some v) (some 2) = some ((v - 32) * 5 / 9) ∧
      ∀ u : Option Int, u ≠ some 2 →
        convert_temperature_to_celsius (some v) u = some v) ∧
    (∀ x : Option ℚ,
      convert_temperature_to_celsius x (some 99) =
        convert_temperature_to_celsius x (some 1)) := by
  constructor
  · intro v hv
    constructor
    · simp [convert_temperature_to_celsius, hv]
    · intro u hu
      unfold convert_temperature_to_celsius
      dsimp only
      rw [if_neg (by simpa using hv), if_neg hu]
      split <;> rfl
  · intro x
    cases x with
    | none => rfl
    | some v =>
      simp only [convert_temperature_to_celsius]
      split <;> simp

/-- Witness for the temperature theorem at 20 degrees with unit codes 2
and 99. -/
theorem temperature_conversion_correct_witness :
    ((20 : ℚ) ∉ ERROR_VALUES) ∧
    convert_temperature_to_celsius (some 20) (some 2) =
      some (((20 : ℚ) - 32) * 5 / 9) ∧
    ((some 99 : Option Int) ≠ some 2) ∧
    convert_temperature_to_celsius (some 20) (some 99) = some 20 := by
  have hv : (20 : ℚ) ∉ ERROR_VALUES := by decide
  exact ⟨hv, (temperature_conversion_correct.1 20 hv).1, by decide,
    (temperature_conversion_correct.1 20 hv).2 (some 99) (by decide)⟩

/-! ### Gear mapping (C7) -/

/-- C7 counterexample.  The sentinel integer `-1` is an integer other than
1-6, yet the gear decode maps it to absence, not to `"Unknown"`. -/
theorem gear_mapping_sentinel_cex :
    map_gear_position (some (-1)) ≠ some "Unknown" ∧
    map_gear_position (some (-1)) = none := by
  exact ⟨by decide, by decide⟩

/-- C7 (amended).  The gear decode maps absence and sentinel integers to
absence, the codes 1-6 to their named gears, and every other (non-sentinel)
integer to `"Unknown"`. -/
theorem gear_mapping_amended :
    (map_gear_position none = none ∧
      ∀ n : Int, n ∈ ERROR_VALUES_INT → map_gear_position (some n) = none) ∧
    (map_gear_position (some 1) = some "P" ∧
      map_gear_position (some 2) = some "R" ∧
      map_gear_position (some 3) = some "N" ∧
      map_gear_position (some 4) = some "D" ∧
      map_gear_position (some 5) = some "S" ∧
      map_gear_position (some 6) = some "M") ∧
    (∀ n : Int, n ∉ ERROR_VALUES_INT → ¬(1 ≤ n ∧ n ≤ 6) →
      map_gear_position (some n) = some "Unknown") := by
  refine ⟨⟨rfl, ?_⟩, ⟨by decide, by decide, by decide, by decide, by decide,
    by decide⟩, ?_⟩
  · intro n hn
    simp [map_gear_position, hn]
  · intro n h1 h2
    have hne1 : n ≠ 1 := by omega
    have hne2 : n ≠ 2 := by omega
    have hne3 : n ≠ 3 := by omega
    have hne4 : n ≠ 4 := by omega
    have hne5 : n ≠ 5 := by omega
    have hne6 : n ≠ 6 := by omega
    simp [map_gear_position, h1, hne1, hne2, hne3, hne4, hne5, hne6]

/-- Witness for the amended gear theorem at the non-sentinel code 7. -/
theorem gear_mapping_amended_witness :
    ((7 : Int) ∈ ERROR_VALUES_INT → False) ∧
    (¬(1 ≤ (7 : Int) ∧ (7 : Int) ≤ 6)) ∧
    map_gear_position (some 7) = some "Unknown" :=
  ⟨by decide, by decide,
    gear_mapping_amended.2.2 7 (by decide) (by decide)⟩

/-! ### Tire-temperature dual encoding (C6) -/

/-- C6 counterexample.  `-150` has magnitude at least 100 and is not a
sentinel, yet the decoder leaves it unscaled: the scaling test compares the
signed value, not the magnitude, to 100. -/
theorem tire_temp_magnitude_cex :
    (100 : ℚ) ≤ |(-150 : ℚ)| ∧
    ((-150 : ℚ) ∉ ERROR_VALUES) ∧
    normalize_tire_temp (some (-150)) = some (-150) ∧
    normalize_tire_temp (some (-150)) ≠ some ((-150 : ℚ) / 10) := by
  refine ⟨by norm_num, by decide, by decide, ?_⟩
  have h : normalize_tire_temp (some (-150)) = some (-150) := by decide
  rw [h]
  intro hc
  rw [Option.some.injEq] at hc
  norm_num at hc

/-- C6 (amended).  The decoder compares the signed raw value to 100: at
least 100 means scaled by ten, below 100 (including all negative values)
means direct; `29` decodes to `29.0` and `840` to `84.0`; and the
temperature-unit conversion is applied after the scaling decision. -/
theorem tire_temp_scaling_correct :
    (∀ v : ℚ, v ∉ ERROR_VALUES →
      normalize_tire_temp (some v) = some (if 100 ≤ v then v / 10 else v)) ∧
    normalize_tire_temp (some 29) = some 29 ∧
    normalize_tire_temp (some 840) = some 84 ∧
    (∀ (v : ℚ) (u : Option Int), v ∉ ERROR_VALUES → 100 ≤ v →
      tire_temp_field (some v) u =
        convert_temperature_to_celsius (some (v / 10)) u) := by
  refine ⟨?_, by decide, ?_, ?_⟩
  · intro v hv
    simp [normalize_tire_temp, hv]
  · norm_num [normalize_tire_temp, ERROR_VALUES]
  · intro v u hv h100
    unfold tire_temp_field normalize_tire_temp
    simp [hv, h100]

/-- Witness for the amended tire-temperature theorem at raw value 840. -/
theorem tire_temp_scaling_correct_witness :
    ((840 : ℚ) ∉ ERROR_VALUES) ∧
    normalize_tire_temp (some 840) = some (if 100 ≤ (840 : ℚ) then 840 / 10 else 840) ∧
    ((100 : ℚ) ≤ 840) ∧
    tire_temp_field (some 840) (some 1) =
      convert_temperature_to_celsius (some ((840 : ℚ) / 10)) (some 1) := by
  have hv : (840 : ℚ) ∉ ERROR_VALUES := by decide
  exact ⟨hv, tire_temp_scaling_correct.1 840 hv, by norm_num,
    tire_temp_scaling_correct.2.2.2 840 (some 1) hv (by norm_num)⟩

/-! ### GPS fallback (C10) -/

/-- The positions table after one step: exactly the old rows plus the one
new `_create_position` row. -/
lemma process_telemetry_data_positions (db : Db) (v : Nat) (t : Transformed)
    (ts : Int) :
    ∃ (pid : Nat) (ad : Option Drive),
      ((process_telemetry_data db v t ts).1).positions =
        db.positions ++ [create_position pid v ts t ad] := by
  unfold process_telemetry_data
  dsimp only
  rw [(handle_charging_session_preserves
    ((handle_drive_detection db v ts t (findActiveDrive db v)).1) v ts t).2.1,
    (handle_drive_detection_preserves db v ts t (findActiveDrive db v)).2.1]
  exact ⟨_, _, rfl⟩

/-- The stored coordinates of every new position row are present. -/
lemma create_position_gps (pid v : Nat) (ts : Int) (t : Transformed)
    (ad : Option Drive) :
    (create_position pid v ts t ad).latitude =
      some (if pyTruthyQ t.latitude then t.latitude.getD 0 else 0) ∧
    (create_position pid v ts t ad).longitude =
      some (if pyTruthyQ t.longitude then t.longitude.getD 0 else 0) :=
  ⟨rfl, rfl⟩

/-- Presence of stored GPS coordinates is preserved along a run. -/
lemma processFrom_gps_present (subs : List Submission) (db : Db)
    (h : ∀ p : Position, p ∈ db.positions →
      p.latitude ≠ none ∧ p.longitude ≠ none) :
    ∀ p : Position, p ∈ (processFrom db subs).positions →
      p.latitude ≠ none ∧ p.longitude ≠ none := by
  induction subs generalizing db with
  | nil => exact h
  | cons sub rest ih =>
    refine ih _ ?_
    intro p hp
    obtain ⟨pid, ad, hpos⟩ := process_telemetry_data_positions db
      sub.vehicle_id sub.transformed sub.timestamp
    rw [hpos] at hp
    rcases List.mem_append.mp hp with hold | hnew
    · exact h p hold
    · rw [List.mem_singleton] at hnew
      subst hnew
      obtain ⟨hlat, hlon⟩ := create_position_gps pid sub.vehicle_id
        sub.timestamp sub.transformed ad
      rw [hlat, hlon]
      exact ⟨Option.some_ne_none _, Option.some_ne_none _⟩

/-- C10.  Every persisted snapshot row has both GPS coordinates present,
and whenever a coordinate is absent or zero after normalization the stored
value is `0.0` (Python `or` fallback in `_create_position`). -/
theorem position_gps_always_present :
    (∀ (subs : List Submission) (p : Position),
      p ∈ (processAll subs).positions →
      p.latitude ≠ none ∧ p.longitude ≠ none) ∧
    (∀ (pid v : Nat) (ts : Int) (t : Transformed) (ad : Option Drive),
      (t.latitude = none ∨ t.latitude = some 0 →
        (create_position pid v ts t ad).latitude = some 0) ∧
      (t.longitude = none ∨ t.longitude = some 0 →
        (create_position pid v ts t ad).longitude = some 0)) := by
  constructor
  · intro subs
    exact processFrom_gps_present subs initDb (by intro p hp; simp [initDb] at hp)
  · intro pid v ts t ad
    constructor
    · intro hlat
      rcases hlat with h | h <;>
        simp [create_position, pyTruthyQ, h]
    · intro hlon
      rcases hlon with h | h <;>
        simp [create_position, pyTruthyQ, h]

/-- Witness for the GPS theorem: the single Park submission stores
coordinates `0.0` for its absent GPS fields. -/
theorem position_gps_always_present_witness :
    (sp1 ∈ (processAll [parkSubmission none 0]).positions ∧
      sp1.latitude ≠ none ∧ sp1.longitude ≠ none) ∧
    (((parkT none).latitude = none ∨ (parkT none).latitude = some 0) ∧
      (create_position 1 1 0 (parkT none) none).latitude = some 0) := by
  have hmem : sp1 ∈ (processAll [parkSubmission none 0]).positions := by
    rw [show processAll [parkSubmission none 0] =
      (process_telemetry_data initDb 1 (parkT none) 0).1 from rfl,
      driveScenario_step1]
    exact List.mem_singleton.mpr rfl
  exact ⟨⟨hmem, position_gps_always_present.1 [parkSubmission none 0] sp1 hmem⟩,
    ⟨Or.inl rfl,
      (position_gps_always_present.2 1 1 0 (parkT none) none).1 (Or.inl rfl)⟩⟩

/-! ### The transformer's raising operations reduce to their total
companions on well-formed values -/

/-- `>>=` on a successful `Except` computation. -/
@[simp] lemma except_bind_ok {ε α β : Type} (a : α) (f : α → Except ε β) :
    (Except.ok a : Except ε α) >>= f = f a := rfl

/-- `pure` on `Except` is `ok`. -/
@[simp] lemma except_pure {ε α : Type} (a : α) :
    (pure a : Except ε α) = Except.ok a := rfl

/-- Scalars are hashable. -/
lemma hashable_of_scalar (v : PyVal) (h : scalarVal v = true) :
    hashableVal v = true := by
  cases v <;> simp_all [scalarVal, hashableVal]

/-- A successful association-list lookup lands on an entry satisfying any
predicate that all entries satisfy. -/
lemma lookup_all_entry (p : String × PyVal → Bool)
    (es : List (String × PyVal)) (h : es.all p = true) (k : String)
    (v : PyVal) (hl : es.lookup k = some v) : p (k, v) = true := by
  induction es with
  | nil => simp at hl
  | cons kv rest ih =>
    obtain ⟨k1, v1⟩ := kv
    rw [List.all_cons, Bool.and_eq_true] at h
    rw [List.lookup] at hl
    by_cases hbeq : k == k1
    · rw [hbeq] at hl
      obtain rfl : k = k1 := by simpa using hbeq
      obtain rfl : v1 = v := by simpa using hl
      exact h.1
    · rw [Bool.not_eq_true] at hbeq
      rw [hbeq] at hl
      exact ih h.2 hl

/-- A field of a dict of scalars (default null) is scalar. -/
lemma dictGet_scalars (es : List (String × PyVal))
    (h : es.all (fun kv => scalarVal kv.2) = true) (k : String) :
    scalarVal (dictGet es k .pynull) = true := by
  unfold dictGet
  cases hl : es.lookup k with
  | none => rfl
  | some v => simpa using lookup_all_entry _ es h k v hl

/-- `pyIsErrorValue` is total on hashables. -/
lemma pyIsErrorValue_eq (v : PyVal) (h : hashableVal v = true) :
    pyIsErrorValue v = .ok (pyIsErrorCore v) := by
  cases v <;> first | rfl | simp [hashableVal] at h

/-- `pyMemIntList` is total on hashables. -/
lemma pyMemIntList_eq (l : List Int) (v : PyVal) (h : hashableVal v = true) :
    pyMemIntList l v = .ok (l.any (fun n => pyEqInt v n)) := by
  cases v <;> first | rfl | simp [hashableVal] at h

/-- `pyCleanValue` is total on hashables. -/
lemma pyCleanValue_eq (v : PyVal) (h : hashableVal v = true) :
    pyCleanValue v = .ok (pyCleanCore v) := by
  simp only [pyCleanValue, pyCleanCore, pyIsErrorValue_eq v h, except_bind_ok]
  split <;> rfl

/-- `pyFloat` is total on non-null scalars. -/
lemma pyFloat_eq (v : PyVal) (h : scalarVal v = true)
    (hn : isPyNull v = false) : pyFloat v = .ok (scalarToQ v) := by
  cases v <;> simp_all [pyFloat, scalarToQ, scalarVal, isPyNull]

/-- A non-error value is not null. -/
lemma not_null_of_not_error (v : PyVal) (h : pyIsErrorCore v = false) :
    isPyNull v = false := by
  cases v <;> simp_all [pyIsErrorCore, isPyNull]

/-- The temperature converter is total on scalars. -/
lemma pyConvertTemp_eq (v u : PyVal) (h : scalarVal v = true) :
    pyConvertTemperatureToCelsius v u = .ok (pyConvertTempCore v u) := by
  have hh := hashable_of_scalar v h
  simp only [pyConvertTemperatureToCelsius, pyConvertTempCore,
    pyIsErrorValue_eq v hh, except_bind_ok]
  by_cases he : pyIsErrorCore v
  · simp [he]
  · have hn := not_null_of_not_error v (by simpa using he)
    simp only [he, if_false, Bool.false_eq_true,
      pyFloat_eq v h hn, except_bind_ok, except_pure]
    split_ifs <;> rfl

/-- The power converter is total on scalars. -/
lemma pyConvertPower_eq (v u : PyVal) (h : scalarVal v = true) :
    pyConvertPowerToKw v u = .ok (pyConvertPowerCore v u) := by
  have hh := hashable_of_scalar v h
  simp only [pyConvertPowerToKw, pyConvertPowerCore,
    pyIsErrorValue_eq v hh, except_bind_ok]
  by_cases he : pyIsErrorCore v
  · simp [he]
  · have hn := not_null_of_not_error v (by simpa using he)
    simp only [he, if_false, Bool.false_eq_true,
      pyFloat_eq v h hn, except_bind_ok, except_pure]
    split_ifs <;> rfl

/-- `pyToBoolean` is total on hashables. -/
lemma pyToBoolean_eq (tv : List Int) (fv : Option Int) (v : PyVal)
    (h : hashableVal v = true) :
    pyToBoolean tv fv v = .ok (pyToBooleanCore tv fv v) := by
  simp only [pyToBoolean, pyToBooleanCore, pyIsErrorValue_eq v h,
    pyMemIntList_eq tv v h, except_bind_ok]
  repeat' split
  all_goals rfl

/-- `pyMapGearPosition` is total on hashables. -/
lemma pyMapGearPosition_eq (v : PyVal) (h : hashableVal v = true) :
    pyMapGearPosition v = .ok (pyGearCore v) := by
  simp only [pyMapGearPosition, pyGearCore, pyIsErrorValue_eq v h,
    except_bind_ok]
  split <;> rfl

/-- `pyMapWindMode` is total on hashables. -/
lemma pyMapWindMode_eq (v : PyVal) (h : hashableVal v = true) :
    pyMapWindMode v = .ok (pyWindCore v) := by
  simp only [pyMapWindMode, pyWindCore, pyIsErrorValue_eq v h, except_bind_ok]
  split <;> rfl

/-- `pyMapCycleMode` is total on hashables. -/
lemma pyMapCycleMode_eq (v : PyVal) (h : hashableVal v = true) :
    pyMapCycleMode v = .ok (pyCycleCore v) := by
  simp only [pyMapCycleMode, pyCycleCore, pyIsErrorValue_eq v h, except_bind_ok]
  split <;> rfl

/-- The tire-temperature normalizer is total on scalars. -/
lemma pyNormalizeTireTemp_eq (v : PyVal) (h : scalarVal v = true) :
    pyNormalizeTireTemp v = .ok (pyTireTempCore v) := by
  have hh := hashable_of_scalar v h
  simp only [pyNormalizeTireTemp, pyTireTempCore, pyIsErrorValue_eq v hh,
    except_bind_ok]
  by_cases he : pyIsErrorCore v
  · simp [he]
  · have hn := not_null_of_not_error v (by simpa using he)
    simp [he, pyFloat_eq v h hn, except_bind_ok, except_pure]

/-- The tire-pressure field is total on scalars. -/
lemma pyNormalizePressureField_eq (v : PyVal) (h : scalarVal v = true) :
    pyNormalizePressureField v = .ok (pyPressureCore v) := by
  have hh := hashable_of_scalar v h
  simp only [pyNormalizePressureField, pyPressureCore]
  by_cases h0 : isPyNull v
  · simp [h0]
  · simp only [h0, if_false, Bool.false_eq_true, pyIsErrorValue_eq v hh,
      except_bind_ok]
    by_cases he : pyIsErrorCore v
    · simp [he]
    · have hn := not_null_of_not_error v (by simpa using he)
      simp [he, pyFloat_eq v h hn, except_bind_ok, except_pure]

/-- Unit extraction is total on scalars and scalar tables. -/
lemma extractUnits_eq (u : PyVal)
    (h : (scalarVal u || dictOfScalars u) = true) :
    extractUnits u = .ok (extractUnitsCore u) := by
  cases u <;> try rfl
  case pydict es =>
    have hall : es.all (fun kv => scalarVal kv.2) = true := by
      simpa [scalarVal, dictOfScalars] using h
    have h1 := dictGet_scalars es hall "1"
    have h2 := dictGet_scalars es hall "2"
    have h4 := dictGet_scalars es hall "4"
    simp only [extractUnits, extractUnitsCore,
      pyCleanValue_eq _ (hashable_of_scalar _ h1),
      pyCleanValue_eq _ (hashable_of_scalar _ h2),
      pyCleanValue_eq _ (hashable_of_scalar _ h4),
      except_bind_ok, except_pure]

/-- The passenger fallback is total on scalar raw values. -/
lemma passengerTemp_eq (praw driver tu : PyVal) (h : scalarVal praw = true) :
    passengerTemp praw driver tu = .ok (passengerTempCore praw driver tu) := by
  have hh := hashable_of_scalar praw h
  simp only [passengerTemp, passengerTempCore]
  by_cases h0 : isPyNull praw
  · simp [h0]
  · simp only [h0, if_false, Bool.false_eq_true, pyIsErrorValue_eq praw hh,
      except_bind_ok]
    by_cases he : pyIsErrorCore praw
    · simp [he]
    · simp [he, pyConvertTemp_eq praw tu h]

/-- The PM2.5 overwrite is total on scalars and scalar lists. -/
lemma pm25Assign_eq (v i0 o0 : PyVal)
    (h : (scalarVal v || listOfScalars v) = true) :
    pm25Assign v i0 o0 = .ok (pm25AssignCore v i0 o0) := by
  cases v <;> try rfl
  case pylist l =>
    have hall : l.all scalarVal = true := by
      simpa [scalarVal, listOfScalars] using h
    match l, hall with
    | [], _ => rfl
    | [a], _ => rfl
    | a :: b :: rest, hall =>
      simp only [List.all_cons, Bool.and_eq_true] at hall
      simp only [pm25Assign, pm25AssignCore,
        pyCleanValue_eq a (hashable_of_scalar a hall.1),
        pyCleanValue_eq b (hashable_of_scalar b hall.2.1),
        except_bind_ok, except_pure]

/-! ### Well-formed payloads feed well-formed values to every operation -/

/-- `.get` on a dict value succeeds. -/
@[simp] lemma pyGet_dict (es : List (String × PyVal)) (k : String)
    (d : PyVal) : pyGet (.pydict es) k d = .ok (dictGet es k d) := rfl

/-- `.get` with default `None` on a dict value succeeds. -/
@[simp] lemma pyGetOpt_dict (es : List (String × PyVal)) (k : String) :
    pyGetOpt (.pydict es) k = .ok (dictGet es k .pynull) := rfl

/-- A well-formed section is a dict of well-formed entries. -/
lemma wfSection_exists (v : PyVal) (h : wfSectionVal v = true) :
    ∃ es, v = .pydict es ∧ es.all wfFieldEntry = true := by
  cases v <;> simp_all [wfSectionVal]

/-- Fetching any section from a well-formed devices dict yields a dict of
well-formed entries (the default empty dict when the key is missing). -/
lemma sectionOfSecs (secs : List (String × PyVal))
    (hall : secs.all (fun kv => wfSectionVal kv.2) = true) (name : String) :
    ∃ es, pyGet (.pydict secs) name (.pydict []) = .ok (.pydict es) ∧
      es.all wfFieldEntry = true := by
  rw [pyGet_dict]
  unfold dictGet
  cases hl : secs.lookup name with
  | none => exact ⟨[], rfl, rfl⟩
  | some v =>
    have hwf : wfSectionVal v = true := by
      simpa using lookup_all_entry _ secs hall name v hl
    obtain ⟨es, rfl, hes⟩ := wfSection_exists v hwf
    exact ⟨es, rfl, hes⟩

/-- A direct (non-table, non-PM2.5) field of a well-formed section is
scalar. -/
lemma dictGet_field_scalar (es : List (String × PyVal))
    (h : es.all wfFieldEntry = true) (k : String)
    (h1 : k ∉ tableKeys) (h2 : k ≠ "getPM2p5Value") :
    scalarVal (dictGet es k .pynull) = true := by
  unfold dictGet
  cases hl : es.lookup k with
  | none => rfl
  | some v =>
    have hwf := lookup_all_entry _ es h k v hl
    simpa [wfFieldEntry, h1, h2] using hwf

/-- A table field of a well-formed section is a scalar or a scalar table
(the default empty dict when missing). -/
lemma dictGet_table (es : List (String × PyVal))
    (h : es.all wfFieldEntry = true) (k : String) (hk : k ∈ tableKeys) :
    (scalarVal (dictGet es k (.pydict [])) ||
      dictOfScalars (dictGet es k (.pydict []))) = true := by
  unfold dictGet
  cases hl : es.lookup k with
  | none => rfl
  | some v =>
    have hwf := lookup_all_entry _ es h k v hl
    simpa [wfFieldEntry, hk] using hwf

/-- The PM2.5 field of a well-formed section is a scalar or a scalar list. -/
lemma dictGet_pm25 (es : List (String × PyVal))
    (h : es.all wfFieldEntry = true) :
    (scalarVal (dictGet es "getPM2p5Value" .pynull) ||
      listOfScalars (dictGet es "getPM2p5Value" .pynull)) = true := by
  unfold dictGet
  cases hl : es.lookup "getPM2p5Value" with
  | none => rfl
  | some v =>
    have hnt : "getPM2p5Value" ∉ tableKeys := by decide
    have hwf := lookup_all_entry _ es h "getPM2p5Value" v hl
    simpa [wfFieldEntry, hnt] using hwf

/-- A two-level `get_nested_value` on a well-formed section is scalar. -/
lemma get_nested_value2_scalar (s : PyVal) (k1 k2 : String)
    (hs : wfSectionVal s = true) :
    scalarVal (get_nested_value2 s k1 k2) = true := by
  obtain ⟨es, rfl, hall⟩ := wfSection_exists s hs
  simp only [get_nested_value2]
  cases hl : es.lookup k1 with
  | none => simp [hl, scalarVal]
  | some v =>
    have hwf := lookup_all_entry _ es hall k1 v hl
    cases v <;> simp [hl, scalarVal]
    case pydict es2 =>
      have hes2 : es2.all (fun kv => scalarVal kv.2) = true := by
        by_cases hk : k1 ∈ tableKeys
        · simpa [wfFieldEntry, hk, scalarVal, dictOfScalars] using hwf
        · by_cases hp : k1 = "getPM2p5Value"
          · subst hp
            simp [wfFieldEntry, hk, scalarVal, listOfScalars] at hwf
          · simp [wfFieldEntry, hk, hp, scalarVal] at hwf
      cases hl2 : es2.lookup k2 with
      | none => simp [hl2, scalarVal]
      | some v2 =>
        simp only [hl2]
        simpa using lookup_all_entry _ es2 hes2 k2 v2 hl2

/-- The `location` value of a well-formed payload evaluates (under the
`or {}` fallback) to a dict of scalars. -/
lemma location_wf (raw : List (String × PyVal))
    (hloc : (match raw.lookup "location" with
      | none => true
      | some .pynull => true
      | some (.pydict es) => es.all (fun kv => scalarVal kv.2)
      | some _ => false) = true) :
    ∃ es, pyOr (dictGet raw "location" .pynull) (.pydict []) = .pydict es ∧
      es.all (fun kv => scalarVal kv.2) = true := by
  cases hl : raw.lookup "location" with
  | none => exact ⟨[], by simp [dictGet, hl, pyOr, pyTruthy], rfl⟩
  | some v =>
    rw [hl] at hloc
    cases v with
    | pynull => exact ⟨[], by simp [dictGet, hl, pyOr, pyTruthy], rfl⟩
    | pydict es =>
      cases es with
      | nil => exact ⟨[], by simp [dictGet, hl, pyOr, pyTruthy], rfl⟩
      | cons e rest =>
        exact ⟨e :: rest, by simp [dictGet, hl, pyOr, pyTruthy],
          by simpa using hloc⟩
    | pybool b => simp at hloc
    | pyint n => simp at hloc
    | pyfloat q => simp at hloc
    | pystr s => simp at hloc
    | pylist l => simp at hloc

/-- The `devices` value of a well-formed payload is a dict of well-formed
sections. -/
lemma devices_wf (raw : List (String × PyVal))
    (hdev : (match raw.lookup "devices" with
      | none => true
      | some (.pydict secs) => secs.all (fun kv => wfSectionVal kv.2)
      | some _ => false) = true) :
    ∃ secs, dictGet raw "devices" (.pydict []) = .pydict secs ∧
      secs.all (fun kv => wfSectionVal kv.2) = true := by
  cases hl : raw.lookup "devices" with
  | none => exact ⟨[], by simp [dictGet, hl], rfl⟩
  | some v =>
    rw [hl] at hdev
    cases v with
    | pydict secs => exact ⟨secs, by simp [dictGet, hl], hdev⟩
    | pynull => simp at hdev
    | pybool b => simp at hdev
    | pyint n => simp at hdev
    | pyfloat q => simp at hdev
    | pystr str => simp at hdev
    | pylist l => simp at hdev

/-- The tire-temperature normalizer's companion always yields a scalar. -/
lemma scalar_pyTireTempCore (v : PyVal) : scalarVal (pyTireTempCore v) = true := by
  unfold pyTireTempCore
  split <;> rfl

/-- Peeling one successful bind off an `Except` computation preserves
success. -/
lemma isOk_bind_eq {e a b : Type} {x : Except e a} {v : a}
    (hx : x = .ok v) {f : a -> Except e b}
    (hf : ((f v).isOk) = true) : ((x >>= f).isOk) = true := by
  rw [hx]
  exact hf

/-- C5 (amended).  On every well-formed payload — `devices` absent or a dict
of sections that are dicts of scalar fields (with scalar tables at the
indexed-table keys and a scalar list allowed for the PM2.5 reading),
`location` absent, null or a dict of scalars — the transformer never raises:
missing fields degrade to absence.  (The original claim, totality on *all*
payloads, fails on a payload whose speed section is present but null.) -/
theorem transform_telemetry_data_total (raw : List (String × PyVal))
    (h : wfPayload raw = true) :
    (transform_telemetry_data raw).isOk = true := by
  unfold wfPayload at h
  rw [Bool.and_eq_true] at h
  obtain ⟨hdev, hloc⟩ := h
  obtain ⟨secs, hsecs, hall⟩ := devices_wf raw hdev
  obtain ⟨esLoc, hloc2, hlocAll⟩ := location_wf raw hloc
  obtain ⟨esSp, hSp, hesSp⟩ := sectionOfSecs secs hall "BYDAutoSpeedDevice"
  obtain ⟨esSt, hSt, hesSt⟩ := sectionOfSecs secs hall "BYDAutoStatisticDevice"
  obtain ⟨esGb, hGb, hesGb⟩ := sectionOfSecs secs hall "BYDAutoGearboxDevice"
  obtain ⟨esIn, hIn, hesIn⟩ := sectionOfSecs secs hall "BYDAutoInstrumentDevice"
  obtain ⟨esBw, hBw, _hesBw⟩ := sectionOfSecs secs hall "BYDAutoBodyworkDevice"
  obtain ⟨esAc, hAc, hesAc⟩ := sectionOfSecs secs hall "BYDAutoAcDevice"
  obtain ⟨esCh, hCh, hesCh⟩ := sectionOfSecs secs hall "BYDAutoChargingDevice"
  obtain ⟨esTy, hTy, _hesTy⟩ := sectionOfSecs secs hall "BYDAutoTyreDevice"
  obtain ⟨esPm, hPm, hesPm⟩ := sectionOfSecs secs hall "BYDAutoPM2p5Device"
  have hInwf : wfSectionVal (.pydict esIn) = true := by
    simpa [wfSectionVal] using hesIn
  have hAcwf : wfSectionVal (.pydict esAc) = true := by
    simpa [wfSectionVal] using hesAc
  have hUnit := extractUnits_eq (dictGet esIn "getUnit(int)" (.pydict []))
    (dictGet_table esIn hesIn "getUnit(int)" (by decide))
  have hLat := pyCleanValue_eq (dictGet esLoc "latitude" .pynull)
    (hashable_of_scalar _ (dictGet_scalars esLoc hlocAll "latitude"))
  have hLon := pyCleanValue_eq (dictGet esLoc "longitude" .pynull)
    (hashable_of_scalar _ (dictGet_scalars esLoc hlocAll "longitude"))
  have hHead := pyCleanValue_eq (dictGet esLoc "heading" .pynull)
    (hashable_of_scalar _ (dictGet_scalars esLoc hlocAll "heading"))
  have hAcc := pyCleanValue_eq (dictGet esLoc "accuracy" .pynull)
    (hashable_of_scalar _ (dictGet_scalars esLoc hlocAll "accuracy"))
  have hSpeed := pyCleanValue_eq (dictGet esSp "getCurrentSpeed" .pynull)
    (hashable_of_scalar _
      (dictGet_field_scalar esSp hesSp "getCurrentSpeed" (by decide) (by decide)))
  have hOdo := pyCleanValue_eq (dictGet esSt "getTotalMileageValue" .pynull)
    (hashable_of_scalar _
      (dictGet_field_scalar esSt hesSt "getTotalMileageValue" (by decide) (by decide)))
  have hBat := pyCleanValue_eq (dictGet esSt "getSOCBatteryPercentage" .pynull)
    (hashable_of_scalar _
      (dictGet_field_scalar esSt hesSt "getSOCBatteryPercentage" (by decide) (by decide)))
  have hRange := pyCleanValue_eq (dictGet esSt "getElecDrivingRangeValue" .pynull)
    (hashable_of_scalar _
      (dictGet_field_scalar esSt hesSt "getElecDrivingRangeValue" (by decide) (by decide)))
  have hOut := pyConvertTemp_eq (dictGet esIn "getOutCarTemperature" .pynull)
    ((extractUnitsCore (dictGet esIn "getUnit(int)" (.pydict []))).1)
    (dictGet_field_scalar esIn hesIn "getOutCarTemperature" (by decide) (by decide))
  have hInT := pyConvertTemp_eq (dictGet esIn "getInCarTemperature" .pynull)
    ((extractUnitsCore (dictGet esIn "getUnit(int)" (.pydict []))).1)
    (dictGet_field_scalar esIn hesIn "getInCarTemperature" (by decide) (by decide))
  have hGear := pyMapGearPosition_eq (dictGet esGb "getGearboxAutoModeType" .pynull)
    (hashable_of_scalar _
      (dictGet_field_scalar esGb hesGb "getGearboxAutoModeType" (by decide) (by decide)))
  have hClimate := pyToBoolean_eq [1] none (dictGet esAc "getAcStartState" .pynull)
    (hashable_of_scalar _
      (dictGet_field_scalar esAc hesAc "getAcStartState" (by decide) (by decide)))
  have hDrv := pyConvertTemp_eq
    (get_nested_value2 (.pydict esAc) "getTemprature(int)" "1")
    ((extractUnitsCore (dictGet esIn "getUnit(int)" (.pydict []))).1)
    (get_nested_value2_scalar _ _ _ hAcwf)
  have hFan := pyCleanValue_eq (dictGet esAc "getAcWindLevel" .pynull)
    (hashable_of_scalar _
      (dictGet_field_scalar esAc hesAc "getAcWindLevel" (by decide) (by decide)))
  have hWind := pyMapWindMode_eq (dictGet esAc "getAcWindMode" .pynull)
    (hashable_of_scalar _
      (dictGet_field_scalar esAc hesAc "getAcWindMode" (by decide) (by decide)))
  have hCycle := pyMapCycleMode_eq (dictGet esAc "getAcCycleMode" .pynull)
    (hashable_of_scalar _
      (dictGet_field_scalar esAc hesAc "getAcCycleMode" (by decide) (by decide)))
  have hRearDef := pyToBoolean_eq [1] none
    (get_nested_value2 (.pydict esAc) "getAcDefrostState(int)" "2")
    (hashable_of_scalar _ (get_nested_value2_scalar _ _ _ hAcwf))
  have hPass := passengerTemp_eq
    (get_nested_value2 (.pydict esAc) "getTemprature(int)" "4")
    (pyConvertTempCore (get_nested_value2 (.pydict esAc) "getTemprature(int)" "1")
      ((extractUnitsCore (dictGet esIn "getUnit(int)" (.pydict []))).1))
    ((extractUnitsCore (dictGet esIn "getUnit(int)" (.pydict []))).1)
    (get_nested_value2_scalar _ _ _ hAcwf)
  have hP1 := pyNormalizePressureField_eq
    (get_nested_value2 (.pydict esIn) "getWheelPressure(int)" "1")
    (get_nested_value2_scalar _ _ _ hInwf)
  have hP2 := pyNormalizePressureField_eq
    (get_nested_value2 (.pydict esIn) "getWheelPressure(int)" "2")
    (get_nested_value2_scalar _ _ _ hInwf)
  have hP3 := pyNormalizePressureField_eq
    (get_nested_value2 (.pydict esIn) "getWheelPressure(int)" "3")
    (get_nested_value2_scalar _ _ _ hInwf)
  have hP4 := pyNormalizePressureField_eq
    (get_nested_value2 (.pydict esIn) "getWheelPressure(int)" "4")
    (get_nested_value2_scalar _ _ _ hInwf)
  have hT1 := pyNormalizeTireTemp_eq
    (get_nested_value2 (.pydict esIn) "getWheelTemperature(int)" "1")
    (get_nested_value2_scalar _ _ _ hInwf)
  have hT2 := pyNormalizeTireTemp_eq
    (get_nested_value2 (.pydict esIn) "getWheelTemperature(int)" "2")
    (get_nested_value2_scalar _ _ _ hInwf)
  have hT3 := pyNormalizeTireTemp_eq
    (get_nested_value2 (.pydict esIn) "getWheelTemperature(int)" "3")
    (get_nested_value2_scalar _ _ _ hInwf)
  have hT4 := pyNormalizeTireTemp_eq
    (get_nested_value2 (.pydict esIn) "getWheelTemperature(int)" "4")
    (get_nested_value2_scalar _ _ _ hInwf)
  have hTt1 := pyConvertTemp_eq
    (pyTireTempCore (get_nested_value2 (.pydict esIn) "getWheelTemperature(int)" "1"))
    ((extractUnitsCore (dictGet esIn "getUnit(int)" (.pydict []))).1)
    (scalar_pyTireTempCore _)
  have hTt2 := pyConvertTemp_eq
    (pyTireTempCore (get_nested_value2 (.pydict esIn) "getWheelTemperature(int)" "2"))
    ((extractUnitsCore (dictGet esIn "getUnit(int)" (.pydict []))).1)
    (scalar_pyTireTempCore _)
  have hTt3 := pyConvertTemp_eq
    (pyTireTempCore (get_nested_value2 (.pydict esIn) "getWheelTemperature(int)" "3"))
    ((extractUnitsCore (dictGet esIn "getUnit(int)" (.pydict []))).1)
    (scalar_pyTireTempCore _)
  have hTt4 := pyConvertTemp_eq
    (pyTireTempCore (get_nested_value2 (.pydict esIn) "getWheelTemperature(int)" "4"))
    ((extractUnitsCore (dictGet esIn "getUnit(int)" (.pydict []))).1)
    (scalar_pyTireTempCore _)
  have hCleanNull : pyCleanValue .pynull = .ok .pynull := rfl
  have hChSt := pyToBoolean_eq [1] none (dictGet esCh "getChargingState" .pynull)
    (hashable_of_scalar _
      (dictGet_field_scalar esCh hesCh "getChargingState" (by decide) (by decide)))
  have hChGun := pyToBoolean_eq [2] none (dictGet esCh "getChargingGunState" .pynull)
    (hashable_of_scalar _
      (dictGet_field_scalar esCh hesCh "getChargingGunState" (by decide) (by decide)))
  have hChPow := pyConvertPower_eq (dictGet esCh "getChargingPower" .pynull)
    ((extractUnitsCore (dictGet esIn "getUnit(int)" (.pydict []))).2.2)
    (dictGet_field_scalar esCh hesCh "getChargingPower" (by decide) (by decide))
  have hPmAs := pm25Assign_eq (dictGet esPm "getPM2p5Value" .pynull)
    .pynull .pynull (dictGet_pm25 esPm hesPm)
  unfold transform_telemetry_data
  dsimp only
  rw [hsecs, hloc2]
  refine isOk_bind_eq hSp ?_
  dsimp only
  refine isOk_bind_eq hSt ?_
  dsimp only
  refine isOk_bind_eq hGb ?_
  dsimp only
  refine isOk_bind_eq hIn ?_
  dsimp only
  refine isOk_bind_eq hBw ?_
  dsimp only
  refine isOk_bind_eq hAc ?_
  dsimp only
  refine isOk_bind_eq hCh ?_
  dsimp only
  refine isOk_bind_eq hTy ?_
  dsimp only
  refine isOk_bind_eq hPm ?_
  dsimp only
  refine isOk_bind_eq (pyGet_dict esIn "getUnit(int)" (.pydict [])) ?_
  dsimp only
  refine isOk_bind_eq hUnit ?_
  dsimp only
  refine isOk_bind_eq (pyGetOpt_dict esLoc "latitude") ?_
  dsimp only
  refine isOk_bind_eq hLat ?_
  dsimp only
  refine isOk_bind_eq (pyGetOpt_dict esLoc "longitude") ?_
  dsimp only
  refine isOk_bind_eq hLon ?_
  dsimp only
  refine isOk_bind_eq (pyGetOpt_dict esLoc "heading") ?_
  dsimp only
  refine isOk_bind_eq hHead ?_
  dsimp only
  refine isOk_bind_eq (pyGetOpt_dict esLoc "accuracy") ?_
  dsimp only
  refine isOk_bind_eq hAcc ?_
  dsimp only
  refine isOk_bind_eq (pyGetOpt_dict esSp "getCurrentSpeed") ?_
  dsimp only
  refine isOk_bind_eq hSpeed ?_
  dsimp only
  refine isOk_bind_eq (pyGetOpt_dict esSt "getTotalMileageValue") ?_
  dsimp only
  refine isOk_bind_eq hOdo ?_
  dsimp only
  refine isOk_bind_eq (pyGetOpt_dict esSt "getSOCBatteryPercentage") ?_
  dsimp only
  refine isOk_bind_eq hBat ?_
  dsimp only
  refine isOk_bind_eq (pyGetOpt_dict esSt "getElecDrivingRangeValue") ?_
  dsimp only
  refine isOk_bind_eq hRange ?_
  dsimp only
  refine isOk_bind_eq (pyGetOpt_dict esIn "getOutCarTemperature") ?_
  dsimp only
  refine isOk_bind_eq hOut ?_
  dsimp only
  refine isOk_bind_eq (pyGetOpt_dict esIn "getInCarTemperature") ?_
  dsimp only
  refine isOk_bind_eq hInT ?_
  dsimp only
  refine isOk_bind_eq (pyGetOpt_dict esGb "getGearboxAutoModeType") ?_
  dsimp only
  refine isOk_bind_eq hGear ?_
  dsimp only
  refine isOk_bind_eq (pyGetOpt_dict esAc "getAcStartState") ?_
  dsimp only
  refine isOk_bind_eq hClimate ?_
  dsimp only
  refine isOk_bind_eq hDrv ?_
  dsimp only
  refine isOk_bind_eq (pyGetOpt_dict esAc "getAcWindLevel") ?_
  dsimp only
  refine isOk_bind_eq hFan ?_
  dsimp only
  refine isOk_bind_eq (pyGetOpt_dict esAc "getAcWindMode") ?_
  dsimp only
  refine isOk_bind_eq hWind ?_
  dsimp only
  refine isOk_bind_eq (pyGetOpt_dict esAc "getAcCycleMode") ?_
  dsimp only
  refine isOk_bind_eq hCycle ?_
  dsimp only
  refine isOk_bind_eq hRearDef ?_
  dsimp only
  refine isOk_bind_eq hPass ?_
  dsimp only
  refine isOk_bind_eq hP1 ?_
  dsimp only
  refine isOk_bind_eq hP2 ?_
  dsimp only
  refine isOk_bind_eq hP3 ?_
  dsimp only
  refine isOk_bind_eq hP4 ?_
  dsimp only
  refine isOk_bind_eq hT1 ?_
  dsimp only
  refine isOk_bind_eq hT2 ?_
  dsimp only
  refine isOk_bind_eq hT3 ?_
  dsimp only
  refine isOk_bind_eq hT4 ?_
  dsimp only
  refine isOk_bind_eq hTt1 ?_
  dsimp only
  refine isOk_bind_eq hTt2 ?_
  dsimp only
  refine isOk_bind_eq hTt3 ?_
  dsimp only
  refine isOk_bind_eq hTt4 ?_
  dsimp only
  refine isOk_bind_eq (pyGetOpt_dict esPm "getPM2p5Value") ?_
  dsimp only
  refine isOk_bind_eq hCleanNull ?_
  dsimp only
  refine isOk_bind_eq (pyGetOpt_dict esPm "getPM2p5Value") ?_
  dsimp only
  refine isOk_bind_eq hCleanNull ?_
  dsimp only
  refine isOk_bind_eq (pyGetOpt_dict esCh "getChargingState") ?_
  dsimp only
  refine isOk_bind_eq hChSt ?_
  dsimp only
  refine isOk_bind_eq (pyGetOpt_dict esCh "getChargingGunState") ?_
  dsimp only
  refine isOk_bind_eq hChGun ?_
  dsimp only
  refine isOk_bind_eq (pyGetOpt_dict esCh "getChargingPower") ?_
  dsimp only
  refine isOk_bind_eq hChPow ?_
  dsimp only
  refine isOk_bind_eq (pyGetOpt_dict esPm "getPM2p5Value") ?_
  dsimp only
  refine isOk_bind_eq hPmAs ?_
  dsimp only
  rfl

/-- C5 (witness).  The amended totality theorem applies to the concrete
well-formed payload `okPayload`. -/
theorem transform_telemetry_data_total_witness :
    wfPayload okPayload = true ∧
      (transform_telemetry_data okPayload).isOk = true :=
  ⟨by decide, transform_telemetry_data_total okPayload (by decide)⟩

/-- C5 (counterexample).  The transformer is not total: on a payload whose
`BYDAutoSpeedDevice` entry is present but null, `devices.get` returns the
stored null (the default applies only to missing keys), and the following
`.get` on it raises `AttributeError` instead of degrading to absence. -/
theorem transform_null_section_cex :
    transform_telemetry_data nullSectionPayload = .error .attributeError := rfl

/-- C9 (corrected).  The PM2.5 guard is `len(value) >= 2`, not an exact
two-element check: every list with at least two entries is decoded
elementwise from its first two entries (sentinel-filtered), and every other
value — absent, scalar, or a list shorter than two — yields both readings
absent. -/
theorem transform_pm25_amended :
    (∀ dd a b rest,
        dictGet dd "getPM2p5Value" .pynull = .pylist (a :: b :: rest) →
        hashableVal a = true → hashableVal b = true →
        transform_pm25 dd = .ok (pyCleanCore a, pyCleanCore b)) ∧
    (∀ dd,
        (∀ a b rest,
          dictGet dd "getPM2p5Value" .pynull ≠ .pylist (a :: b :: rest)) →
        transform_pm25 dd = .ok (.pynull, .pynull)) := by
  constructor
  · intro dd a b rest hv ha hb
    unfold transform_pm25
    rw [hv]
    simp only [pyCleanValue_eq a ha, pyCleanValue_eq b hb, except_bind_ok,
      except_pure]
  · intro dd hv
    unfold transform_pm25
    split
    · rename_i a b rest h
      exact absurd h (hv a b rest)
    · rfl

/-- C9 (witness).  The amended statement applies to a concrete two-element
list and to a concrete scalar reading. -/
theorem transform_pm25_amended_witness :
    transform_pm25 [("getPM2p5Value", .pylist [.pyint 9, .pyint 51])] =
        .ok (.pyint 9, .pyint 51) ∧
      transform_pm25 [("getPM2p5Value", .pyint 3)] = .ok (.pynull, .pynull) := by
  constructor
  · exact (transform_pm25_amended.1
      [("getPM2p5Value", .pylist [.pyint 9, .pyint 51])]
      (.pyint 9) (.pyint 51) [] rfl rfl rfl).trans rfl
  · exact transform_pm25_amended.2 [("getPM2p5Value", .pyint 3)]
      (by intro a b rest h; simp [dictGet, List.lookup] at h)

/-- C9 (counterexample).  A three-element list is not a two-element list,
yet the decoder accepts it and decodes its first two entries rather than
yielding absence. -/
theorem pm25_three_element_cex :
    transform_pm25 pm25ThreeList = .ok (.pyint 5, .pyint 7) ∧
      (Except.ok ((.pyint 5 : PyVal), (.pyint 7 : PyVal)) :
        Except PyErr (PyVal × PyVal)) ≠ .ok (.pynull, .pynull) :=
  ⟨rfl, by simp⟩

end Ditele
